import Mathlib

/-!
Verification of the kzybru-pipe-calculator core against its specification.

The development shallowly embeds the three core components of the repository:

* the telescoping resolver (`src/utils/nesting.js`, `findTelescopingPossibilities`),
* the geometric circle-packing engine (`optimizer` module: `optimizeArrangement`,
  `createNestedGroups`, `arrangePipesInCrossSection`, `findBestPosition`,
  `findTangentPositions`, `findNestingPositions`, `canPlaceCircle`),
* the container aggregator (`src/utils/calculations.js`, `calculatePipeResult`
  and `calculateVolumesNeededByPacking`).

Numeric conventions of the embedding: the source is JavaScript working on IEEE
doubles; pure rational arithmetic (sorting, nesting checks, weights, counters)
is embedded over `ℚ`, geometric quantities that flow through `Math.sqrt`,
`Math.cos`, `Math.sin` are embedded over `ℝ` (the exact-real idealisation of the
float computation).  JavaScript `Infinity` produced by the aggregator is
embedded as `⊤ : WithTop ℤ`.  JavaScript falsiness checks such as
`!volume.width` or `!weightCapacity` become `= 0` tests, which is exactly the
falsiness of a (non-NaN) number.
-/

namespace KzybruPipe

/-- A raw pipe specification as consumed by the optimizer module and by
`findTelescopingPossibilities` (fields `id`, `externalDiameter`,
`internalDiameter`, `length`, `weightPerMeter`; units as used by the caller,
diameters and lengths in cm, weight in kg/m). -/
structure Pipe where
  id : ℕ
  externalDiameter : ℚ
  internalDiameter : ℚ
  length : ℚ
  weightPerMeter : ℚ
deriving DecidableEq, Repr

/-- Stable sort of pipes by `externalDiameter` descending.  Models the JS
`[...pipes].sort((a, b) => b.externalDiameter - a.externalDiameter)` (V8's
`Array.prototype.sort` is stable, and with this comparator `a` may stay before
`b` exactly when `b.externalDiameter - a.externalDiameter ≤ 0`). -/
def sortPipesDesc (pipes : List Pipe) : List Pipe :=
  pipes.mergeSort fun a b => decide (b.externalDiameter ≤ a.externalDiameter)

/-! ## Telescoping resolver (`src/utils/nesting.js`) -/

/-- The record held in `pipeMap` for each pipe by
`findTelescopingPossibilities`: the pipe's own fields plus `telescopedWith`,
`telescopingType` (one of the strings "none", "full", "partial", "nested", as
in the source) and `telescopedIn`. -/
structure TPipe where
  pipe : Pipe
  telescopedWith : List ℕ
  telescopingType : String
  telescopedIn : Option ℕ
deriving DecidableEq, Repr

/-- A pipe record returned by `findTelescopingPossibilities` after the final
mapping step added `effectiveDiameter` and `effectiveLength`. -/
structure RPipe where
  pipe : Pipe
  telescopedWith : List ℕ
  telescopingType : String
  telescopedIn : Option ℕ
  effectiveDiameter : ℚ
  effectiveLength : ℚ
deriving DecidableEq, Repr

/-- Initial `pipeMap` contents, in insertion order:
`pipes.forEach(pipe => pipeMap.set(pipe.id, { ...pipe, telescopedWith: [],
telescopingType: 'none' }))`.  (For the duplicate-id case the JS `Map` would
collapse entries; the theorems below assume distinct ids.) -/
def initState (pipes : List Pipe) : List TPipe :=
  pipes.map fun p => { pipe := p, telescopedWith := [], telescopingType := "none", telescopedIn := none }

/-- Mutation of the outer pipe's record on accepting a nested candidate:
`outerPipeData.telescopedWith.push(innerPipe.id);
outerPipeData.telescopingType = telescopingType;`. -/
def setOuter (s : List TPipe) (outerId innerId : ℕ) (ty : String) : List TPipe :=
  s.map fun r =>
    if r.pipe.id = outerId then
      { r with telescopedWith := r.telescopedWith ++ [innerId], telescopingType := ty }
    else r

/-- Mutation of the accepted inner pipe's record:
`innerPipeData.telescopingType = 'nested'; innerPipeData.telescopedIn = outerPipe.id;`. -/
def setInner (s : List TPipe) (innerId outerId : ℕ) : List TPipe :=
  s.map fun r =>
    if r.pipe.id = innerId then
      { r with telescopingType := "nested", telescopedIn := some outerId }
    else r

/-- The classification computed per accepted candidate:
`innerPipe.length <= outerPipe.length ? 'full' : 'partial'`. -/
def classify (outer inner : Pipe) : String :=
  if inner.length ≤ outer.length then "full" else "partial"

/-- The inner loop `for (let j = i + 1; j < sortedPipes.length; j++)` of
`findTelescopingPossibilities`: scan the pipes after the outer pipe in sorted
order and record every candidate whose external diameter fits the (fixed)
available internal diameter of the outer pipe. -/
def scanInners (outer : Pipe) (avail : ℚ) (inners : List Pipe) (s : List TPipe) : List TPipe :=
  inners.foldl
    (fun s inner =>
      if inner.externalDiameter ≤ avail then
        setInner (setOuter s outer.id inner.id (classify outer inner)) inner.id outer.id
      else s)
    s

/-- The outer loop `for (let i = 0; i < sortedPipes.length; i++)`: each pipe in
descending-diameter order acts as a potential outer pipe with
`availableInternalDiameter = outer.internalDiameter - 2 * allowance` (computed
once, and never updated inside the inner loop in `nesting.js`); an outer pipe
with no available internal space hosts nothing. -/
def scanOuters (allowance : ℚ) : List Pipe → List TPipe → List TPipe
  | [], s => s
  | outer :: rest, s =>
    let avail := outer.internalDiameter - 2 * allowance
    if avail ≤ 0 then scanOuters allowance rest s
    else scanOuters allowance rest (scanInners outer avail rest s)

/-- JavaScript `Math.max(q, m)` where `m` is `Math.max(...list)` and may be
`-Infinity` for an empty list (embedded as `⊥ : WithBot ℚ`). -/
def qMax (q : ℚ) : WithBot ℚ → ℚ
  | ⊥ => q
  | (x : ℚ) => max q x

/-- The body of the final mapping step of `findTelescopingPossibilities`
(the closure over `pipeMap` applied to each record): non-outer pipes keep
their own dimensions; an outer pipe of type "full" keeps its own dimensions,
one of type "partial" takes the maximum of its own and its members'
dimensions (members looked up in the pipe map by id). -/
def effRec (s : List TPipe) (r : TPipe) : RPipe :=
  if r.telescopingType = "none" ∨ r.telescopingType = "nested" then
    { pipe := r.pipe, telescopedWith := r.telescopedWith,
      telescopingType := r.telescopingType, telescopedIn := r.telescopedIn,
      effectiveDiameter := r.pipe.externalDiameter, effectiveLength := r.pipe.length }
  else
    let innerPipes := r.telescopedWith.filterMap fun i => s.find? fun q => q.pipe.id = i
    let maxInnerLength := (innerPipes.map fun p => p.pipe.length).maximum
    let maxInnerDiameter := (innerPipes.map fun p => p.pipe.externalDiameter).maximum
    if r.telescopingType = "full" then
      { pipe := r.pipe, telescopedWith := r.telescopedWith,
        telescopingType := r.telescopingType, telescopedIn := r.telescopedIn,
        effectiveDiameter := r.pipe.externalDiameter, effectiveLength := r.pipe.length }
    else
      { pipe := r.pipe, telescopedWith := r.telescopedWith,
        telescopingType := r.telescopingType, telescopedIn := r.telescopedIn,
        effectiveDiameter := qMax r.pipe.externalDiameter maxInnerDiameter,
        effectiveLength := qMax r.pipe.length maxInnerLength }

/-- The final mapping step `Array.from(pipeMap.values()).map(pipe => ...)` of
`findTelescopingPossibilities`. -/
def effectivize (s : List TPipe) : List RPipe :=
  s.map (effRec s)

/-- The `pipes` component of the result of `findTelescopingPossibilities pipes
allowance` (the other component, `relationships`, is a display tree built by
`buildTelescopingTree` that no claim touches and is not embedded). -/
def findTelescopingPossibilitiesPipes (pipes : List Pipe) (allowance : ℚ) : List RPipe :=
  effectivize (scanOuters allowance (sortPipesDesc pipes) (initState pipes))

/-- Member records of a resolved pipe `r`, looked up by id in the resolver
output, as the source's `pipe.telescopedWith.map(id => pipeMap.get(id))`. -/
def resolvedMembers (out : List RPipe) (r : RPipe) : List RPipe :=
  r.telescopedWith.filterMap fun i => out.find? fun q => q.pipe.id = i

/-- Invariant record property used to characterise the overall
`telescopingType` computed by `findTelescopingPossibilities`: whenever the
record has accepted members, its type equals the classification of the last
accepted member (the source overwrites `telescopingType` on every
acceptance). -/
def GoodRec (pipes : List Pipe) (r : TPipe) : Prop :=
  ∀ lastId, r.telescopedWith.getLast? = some lastId →
    ∃ m ∈ pipes, m.id = lastId ∧ r.telescopingType = classify r.pipe m

/-- Loop invariant for `scanOuters`: the records carry exactly the original
pipes, every record satisfies `GoodRec`, and records of pipes not yet
processed as outer pipes have not accepted any member. -/
def ScanInv (pipes : List Pipe) (rem : List Pipe) (s : List TPipe) : Prop :=
  s.map (·.pipe) = pipes ∧
  (∀ r ∈ s, GoodRec pipes r) ∧
  (∀ p ∈ rem, ∀ r ∈ s, r.pipe.id = p.id → r.telescopedWith = [])

/-! ## Circle-packing engine (optimizer module) -/

/-- A transport volume `{length, width, height, weightCapacity}` (cm / kg). -/
structure Volume where
  length : ℚ
  width : ℚ
  height : ℚ
  weightCapacity : ℚ
deriving DecidableEq, Repr

/-- The rectangular cross-section (width × height plane) filled by the
engine. -/
structure Rect where
  width : ℚ
  height : ℚ
deriving DecidableEq, Repr

/-- A box entry; the optimizer only tests whether any boxes are present
(`arrangeBoxes` is an unimplemented stub in the source). -/
structure Box where
  length : ℚ
  width : ℚ
  height : ℚ
deriving DecidableEq, Repr

/-- A nested-pipe group built by `createNestedGroups` in the optimizer module
(note: this function never updates `effectiveDiameter`, only
`effectiveLength`). -/
structure NGroup where
  outerPipe : Pipe
  nestedPipes : List Pipe
  effectiveDiameter : ℚ
  effectiveLength : ℚ
  totalWeight : ℚ
deriving DecidableEq, Repr

/-- One step of the inner `for (const innerPipe of sortedPipes)` loop of
`createNestedGroups`, threading the group under construction, the current
`availableInternalDiameter` and the `usedPipes` set. -/
def nestScanStep (outer : Pipe) (allowance : ℚ) (st : NGroup × ℚ × List ℕ) (inner : Pipe) :
    NGroup × ℚ × List ℕ :=
  let (group, avail, used) := st
  if inner.id ∈ used ∨ inner.id = outer.id then st
  else if inner.externalDiameter ≤ avail then
    ({ group with
        nestedPipes := group.nestedPipes ++ [inner],
        totalWeight := group.totalWeight + inner.length / 100 * inner.weightPerMeter,
        effectiveLength :=
          if group.effectiveLength < inner.length then inner.length else group.effectiveLength },
      inner.internalDiameter - 2 * allowance,
      used ++ [inner.id])
  else st

/-- One step of the outer `for (const outerPipe of sortedPipes)` loop of
`createNestedGroups`: skip consumed pipes, scan all pipes as nesting
candidates, and keep the group only when it accepted at least one member. -/
def outerScanStep (allowance : ℚ) (sortedPipes : List Pipe) (st : List NGroup × List ℕ)
    (outer : Pipe) : List NGroup × List ℕ :=
  let (groups, used) := st
  if outer.id ∈ used then st
  else
    let g0 : NGroup :=
      { outerPipe := outer, nestedPipes := [],
        effectiveDiameter := outer.externalDiameter, effectiveLength := outer.length,
        totalWeight := outer.length / 100 * outer.weightPerMeter }
    let avail := outer.internalDiameter - 2 * allowance
    let scan := sortedPipes.foldl (nestScanStep outer allowance) (g0, avail, used)
    if scan.1.nestedPipes.isEmpty then (groups, scan.2.2)
    else (groups ++ [scan.1], scan.2.2 ++ [outer.id])

/-- The optimizer module's `createNestedGroups(pipeTypes, allowance)`: returns
the nested groups and the standalone pipes (sorted order, not consumed by any
group). -/
def createNestedGroups (pipeTypes : List Pipe) (allowance : ℚ) : List NGroup × List Pipe :=
  let sortedPipes := sortPipesDesc pipeTypes
  let scan := sortedPipes.foldl (outerScanStep allowance sortedPipes) ([], [])
  (scan.1, sortedPipes.filter fun p => decide (p.id ∉ scan.2))

/-- A packing template: a nested group or a standalone pipe reduced to
`{type, diameter, length, weight, pipes}` (plus the data the layer/counters
code reads back: the outer pipe and the nested members). -/
structure Template where
  isNested : Bool
  outerPipe : Pipe
  nestedPipes : List Pipe
  diameter : ℚ
  length : ℚ
  weight : ℚ
  pipes : List Pipe
deriving DecidableEq, Repr

/-- Template built for a standalone pipe in `arrangePipesInCrossSection`
(weight from `length / 100 * weightPerMeter`, cm → m conversion). -/
def standaloneTemplate (p : Pipe) : Template :=
  { isNested := false, outerPipe := p, nestedPipes := [],
    diameter := p.externalDiameter, length := p.length,
    weight := p.length / 100 * p.weightPerMeter, pipes := [p] }

/-- Template built for a nested group in `arrangePipesInCrossSection`; the
group weight is recomputed there from the members. -/
def groupTemplate (g : NGroup) : Template :=
  { isNested := true, outerPipe := g.outerPipe, nestedPipes := g.nestedPipes,
    diameter := g.effectiveDiameter, length := g.effectiveLength,
    weight := g.nestedPipes.foldl (fun w n => w + n.length / 100 * n.weightPerMeter)
      (g.outerPipe.length / 100 * g.outerPipe.weightPerMeter),
    pipes := g.outerPipe :: g.nestedPipes }

/-- A placed circle: centre, bare radius, effective radius (bare radius plus
half the spacing) and the template it instantiates. -/
structure Circle where
  x : ℝ
  y : ℝ
  radius : ℝ
  effectiveRadius : ℝ
  item : Template

/-- A candidate position with its (unused by the final sort key) score. -/
structure Cand where
  x : ℝ
  y : ℝ
  score : ℝ

/-- Translation of `canPlaceCircle(x, y, radius, placedCircles, maxWidth,
maxHeight)`: inside the rectangle, and at distance at least
`radius + placed.effectiveRadius - 0.001` from every placed circle (the
`radius` passed by all callers is an effective radius). -/
def canPlaceCircle (x y radius : ℝ) (placedCircles : List Circle) (maxWidth maxHeight : ℝ) : Prop :=
  ¬(x - radius < 0 ∨ x + radius > maxWidth ∨ y - radius < 0 ∨ y + radius > maxHeight) ∧
  ∀ p ∈ placedCircles,
    ¬(Real.sqrt ((x - p.x) ^ 2 + (y - p.y) ^ 2) < radius + p.effectiveRadius - 0.001)

noncomputable instance (x y radius : ℝ) (placedCircles : List Circle) (maxWidth maxHeight : ℝ) :
    Decidable (canPlaceCircle x y radius placedCircles maxWidth maxHeight) := by
  unfold canPlaceCircle; infer_instance

/-- The abscissas visited by the floor scan
`for (let x = radius; x <= maxWidth - radius; x += radius / 2)`.
For `radius ≤ 0` the JavaScript loop would not terminate (no output exists);
the embedding returns the empty list there. -/
noncomputable def floorCandidateXs (radius maxWidth : ℝ) : List ℝ :=
  if 0 < radius ∧ radius ≤ maxWidth - radius then
    (List.range (⌊(maxWidth - 2 * radius) / (radius / 2)⌋₊ + 1)).map
      fun k => radius + k * (radius / 2)
  else []

/-- Translation of `findTangentPositions(placed, radius, allPlaced, maxWidth,
maxHeight)`: nine points sampled at angles `0, π/8, …, π` on the circle of
radius `placed.effectiveRadius + radius` around the placed circle (the float
loop `for (angle = 0; angle <= Math.PI; angle += Math.PI / 8)` performs these
nine iterations), keeping those in bounds and placeable. -/
noncomputable def findTangentPositions (placed : Circle) (radius : ℝ) (allPlaced : List Circle)
    (maxWidth maxHeight : ℝ) : List Cand :=
  let combinedRadius := placed.effectiveRadius + radius
  (List.range 9).filterMap fun k =>
    let angle := k * (Real.pi / 8)
    let x := placed.x + combinedRadius * Real.cos angle
    let y := placed.y + combinedRadius * Real.sin angle
    if 0 ≤ x - radius ∧ x + radius ≤ maxWidth ∧ 0 ≤ y - radius ∧ y + radius ≤ maxHeight ∧
        canPlaceCircle x y radius allPlaced maxWidth maxHeight then
      some ⟨x, y, y + x / 1000⟩
    else none

/-- Translation of `findNestingPositions(circle1, circle2, radius, allPlaced,
maxWidth, maxHeight)`: the two intersection points of the circles of radii
`effectiveRadius + radius` around the two placed circles, when those circles
properly intersect, filtered for bounds and placeability. -/
noncomputable def findNestingPositions (circle1 circle2 : Circle) (radius : ℝ)
    (allPlaced : List Circle) (maxWidth maxHeight : ℝ) : List Cand :=
  let dx := circle2.x - circle1.x
  let dy := circle2.y - circle1.y
  let distance := Real.sqrt (dx * dx + dy * dy)
  let r1 := circle1.effectiveRadius + radius
  let r2 := circle2.effectiveRadius + radius
  if distance < r1 + r2 ∧ distance > |r1 - r2| then
    let a := (r1 * r1 - r2 * r2 + distance * distance) / (2 * distance)
    let h := Real.sqrt (max 0 (r1 * r1 - a * a))
    let px := circle1.x + a * dx / distance
    let py := circle1.y + a * dy / distance
    [(px + h * dy / distance, py - h * dx / distance),
     (px - h * dy / distance, py + h * dx / distance)].filterMap fun q =>
      if 0 ≤ q.1 - radius ∧ q.1 + radius ≤ maxWidth ∧ 0 ≤ q.2 - radius ∧ q.2 + radius ≤ maxHeight ∧
          canPlaceCircle q.1 q.2 radius allPlaced maxWidth maxHeight then
        some ⟨q.1, q.2, q.2 + q.1 / 1000⟩
      else none
  else []

/-- The candidates contributed by each placed circle in order: arc positions
above it (when `topY + radius ≤ maxHeight`), then the position directly to its
right (when it fits and is placeable). -/
noncomputable def perCircleCands (placedCircles : List Circle) (radius maxWidth maxHeight : ℝ) :
    List Cand :=
  (placedCircles.map fun placed =>
    (if placed.y + placed.effectiveRadius + radius + radius ≤ maxHeight then
      findTangentPositions placed radius placedCircles maxWidth maxHeight
    else []) ++
    (if placed.x + placed.effectiveRadius + radius + radius ≤ maxWidth then
      (if canPlaceCircle (placed.x + placed.effectiveRadius + radius) placed.y radius
          placedCircles maxWidth maxHeight then
        [⟨placed.x + placed.effectiveRadius + radius, placed.y,
          placed.y + (placed.x + placed.effectiveRadius + radius) / 1000⟩]
      else [])
    else [])).flatten

/-- The candidates of the pair loop `for i < j` over placed circles
(hexagonal "nook" positions between two circles). -/
noncomputable def nookCands (radius : ℝ) (allPlaced : List Circle) (maxWidth maxHeight : ℝ) :
    List Circle → List Cand
  | [] => []
  | c :: rest =>
    (rest.map fun c2 => findNestingPositions c c2 radius allPlaced maxWidth maxHeight).flatten ++
      nookCands radius allPlaced maxWidth maxHeight rest

/-- Validity filter applied to every collected candidate before selection. -/
def isValidCand (radius maxWidth maxHeight : ℝ) (placedCircles : List Circle) (c : Cand) : Prop :=
  0 ≤ c.x - radius ∧ c.x + radius ≤ maxWidth ∧ 0 ≤ c.y - radius ∧ c.y + radius ≤ maxHeight ∧
    canPlaceCircle c.x c.y radius placedCircles maxWidth maxHeight

noncomputable instance (radius maxWidth maxHeight : ℝ) (placedCircles : List Circle) (c : Cand) :
    Decidable (isValidCand radius maxWidth maxHeight placedCircles c) := by
  unfold isValidCand; infer_instance

/-- Strict version of the sort comparator
`(a, b) => |a.y - b.y| < 0.01 ? a.x - b.x : a.y - b.y`. -/
noncomputable def cmpLt (a b : Cand) : Prop :=
  if |a.y - b.y| < 0.01 then a.x < b.x else a.y < b.y

noncomputable instance (a b : Cand) : Decidable (cmpLt a b) := by
  unfold cmpLt; infer_instance

/-- Selection `validCandidates.sort(cmp)[0]`: the first element of the list
that is minimal for the comparator.  (V8's sort is stable, so for a consistent
comparator the head of the sorted array is exactly the earliest minimal
element, which this left fold computes.) -/
noncomputable def selectBest : List Cand → Option Cand
  | [] => none
  | c :: rest => some (rest.foldl (fun best cand => if cmpLt cand best then cand else best) c)

/-- Translation of `findBestPosition(placedCircles, radius, maxWidth,
maxHeight, spacing)` (the `spacing` argument is only logged by the source and
is omitted).  Returns the chosen centre. -/
noncomputable def findBestPosition (placedCircles : List Circle) (radius maxWidth maxHeight : ℝ) :
    Option (ℝ × ℝ) :=
  if placedCircles.isEmpty then
    if radius * 2 ≤ maxWidth ∧ radius * 2 ≤ maxHeight then some (radius, radius) else none
  else
    let floorCands := (floorCandidateXs radius maxWidth).filterMap fun x =>
      if canPlaceCircle x radius radius placedCircles maxWidth maxHeight then
        some (⟨x, radius, x + radius⟩ : Cand)
      else none
    let candidates := floorCands ++ perCircleCands placedCircles radius maxWidth maxHeight ++
      nookCands radius placedCircles maxWidth maxHeight placedCircles
    let validCandidates := candidates.filter fun c =>
      decide (isValidCand radius maxWidth maxHeight placedCircles c)
    (selectBest validCandidates).map fun c => (c.x, c.y)

/-- Per-pipe counters accumulated in `arrangement.pipeCounts`. -/
structure CountRec where
  pipe : Pipe
  count : ℕ
  totalLength : ℚ
  totalWeight : ℚ
deriving DecidableEq, Repr

/-- Update of `arrangement.pipeCounts[pipe.id]` for one placed pipe: create a
zero record on first sight (insertion order preserved) and increment count,
total length (cm) and total weight (kg, from cm → m conversion). -/
def bumpCount : List (ℕ × CountRec) → Pipe → List (ℕ × CountRec)
  | [], p =>
    [(p.id, { pipe := p, count := 1, totalLength := p.length,
              totalWeight := p.length / 100 * p.weightPerMeter })]
  | (i, r) :: rest, p =>
    if i = p.id then
      (i, { r with
              count := r.count + 1,
              totalLength := r.totalLength + p.length,
              totalWeight := r.totalWeight + p.length / 100 * p.weightPerMeter }) :: rest
    else (i, r) :: bumpCount rest p

/-- State threaded through the placement loop of
`arrangePipesInCrossSection`. -/
structure PackState where
  placed : List Circle
  pipeCounts : List (ℕ × CountRec)
  totalPipes : ℕ
  totalWeight : ℚ
  weightCapacityExceeded : Bool
  pipesExtendBeyondVolume : Bool
  maxPipeLength : ℚ
  placedAny : Bool

/-- One placement attempt for one template inside a round: find a position;
if found and the cumulative weight stays within a non-zero `weightCapacity`
(zero meaning unlimited, as `!weightCapacity`), append the circle and update
the counters, otherwise only set `weightCapacityExceeded`. -/
noncomputable def placeStep (crossSection : Rect) (spacing volumeLength weightCapacity : ℚ)
    (s : PackState) (template : Template) : PackState :=
  let radius : ℝ := (template.diameter : ℝ) / 2
  let effectiveRadius : ℝ := radius + (spacing : ℝ) / 2
  match findBestPosition s.placed effectiveRadius (crossSection.width : ℝ)
      (crossSection.height : ℝ) with
  | none => s
  | some pos =>
    let newTotalWeight := s.totalWeight + template.weight
    if weightCapacity = 0 ∨ newTotalWeight ≤ weightCapacity then
      { placed := s.placed ++
          [{ x := pos.1, y := pos.2, radius := radius, effectiveRadius := effectiveRadius,
             item := template }],
        pipeCounts := template.pipes.foldl bumpCount s.pipeCounts,
        totalPipes := s.totalPipes + template.pipes.length,
        totalWeight := newTotalWeight,
        weightCapacityExceeded := s.weightCapacityExceeded,
        pipesExtendBeyondVolume :=
          if volumeLength < template.length then true else s.pipesExtendBeyondVolume,
        maxPipeLength :=
          if volumeLength < template.length then max s.maxPipeLength template.length
          else s.maxPipeLength,
        placedAny := true }
    else { s with weightCapacityExceeded := true }

/-- One round of the `while` loop: try to place one instance of every
template, in sorted order. -/
noncomputable def packRound (crossSection : Rect) (spacing volumeLength weightCapacity : ℚ)
    (pipeTemplates : List Template) (s : PackState) : PackState :=
  pipeTemplates.foldl (placeStep crossSection spacing volumeLength weightCapacity) s

/-- The `while (placedAny && iterations < maxIterations)` loop with the
source's `maxIterations = 10000` as fuel: each executed round first clears
`placedAny`. -/
noncomputable def packLoop (crossSection : Rect) (spacing volumeLength weightCapacity : ℚ)
    (pipeTemplates : List Template) : ℕ → PackState → PackState
  | 0, s => s
  | fuel + 1, s =>
    if s.placedAny then
      packLoop crossSection spacing volumeLength weightCapacity pipeTemplates fuel
        (packRound crossSection spacing volumeLength weightCapacity pipeTemplates
          { s with placedAny := false })
    else s

/-- An item of the visualization layer produced from a placed circle. -/
structure LayerItem where
  id : ℕ
  pipe : Pipe
  x : ℝ
  y : ℝ
  diameter : ℝ
  radius : ℝ
  nestedPipes : List Pipe

/-- The single layer the engine reports. -/
structure Layer where
  height : ℚ
  yOffset : ℚ
  items : List LayerItem

/-- The arrangement returned by the optimizer: an optional error tag (present
only on the early-exit paths of `optimizeArrangement`), the layers for the
visualization, the per-pipe counters, totals, the raw placed circles and the
flags. -/
structure Arrangement where
  error : Option String
  layers : List Layer
  pipeCounts : List (ℕ × CountRec)
  totalPipes : ℕ
  totalWeight : ℚ
  volumeUsed : ℚ
  positions : List Circle
  weightCapacityExceeded : Bool
  pipesExtendBeyondVolume : Bool
  maxPipeLength : ℚ

/-- Translation of `arrangePipesInCrossSection(crossSection, nestedGroups,
standalonePipes, spacing, volumeLength, weightCapacity)`. -/
noncomputable def arrangePipesInCrossSection (crossSection : Rect) (nestedGroups : List NGroup)
    (standalonePipes : List Pipe) (spacing volumeLength weightCapacity : ℚ) : Arrangement :=
  let pipeTemplates :=
    (nestedGroups.map groupTemplate ++ standalonePipes.map standaloneTemplate).mergeSort
      fun a b => decide (b.diameter ≤ a.diameter)
  let s0 : PackState :=
    { placed := [], pipeCounts := [], totalPipes := 0, totalWeight := 0,
      weightCapacityExceeded := false, pipesExtendBeyondVolume := false, maxPipeLength := 0,
      placedAny := true }
  let final := packLoop crossSection spacing volumeLength weightCapacity pipeTemplates 10000 s0
  { error := none,
    layers := [{ height := crossSection.height,
                 yOffset := 0,
                 items := final.placed.map fun c =>
                   { id := c.item.outerPipe.id, pipe := c.item.outerPipe, x := c.x, y := c.y,
                     diameter := c.radius * 2, radius := c.radius,
                     nestedPipes := if c.item.isNested then c.item.nestedPipes else [] } }],
    pipeCounts := final.pipeCounts,
    totalPipes := final.totalPipes,
    totalWeight := final.totalWeight,
    volumeUsed := 0,
    positions := final.placed,
    weightCapacityExceeded := final.weightCapacityExceeded,
    pipesExtendBeyondVolume := final.pipesExtendBeyondVolume,
    maxPipeLength := final.maxPipeLength }

/-- The error results of `optimizeArrangement` carry only
`{error, layers: [], pipeCounts: {}}`; the remaining fields are absent in the
source object and embedded as their zero values. -/
def errorArrangement (msg : String) : Arrangement :=
  { error := some msg, layers := [], pipeCounts := [], totalPipes := 0, totalWeight := 0,
    volumeUsed := 0, positions := [], weightCapacityExceeded := false,
    pipesExtendBeyondVolume := false, maxPipeLength := 0 }

/-- Translation of the entry point `optimizeArrangement(volume, pipeTypes,
boxes, minSpace, allowance)`.  The validity guard `!volume.length ||
!volume.width || !volume.height` is JavaScript falsiness, i.e. an `= 0` test;
`arrangeBoxes` is an empty stub in the source, so the boxes branch returns the
arrangement unchanged. -/
noncomputable def optimizeArrangement (volume : Volume) (pipeTypes : List Pipe)
    (boxes : List Box) (minSpace allowance : ℚ) : Arrangement :=
  if volume.length = 0 ∨ volume.width = 0 ∨ volume.height = 0 then
    errorArrangement "Invalid volume dimensions"
  else if pipeTypes.isEmpty then
    errorArrangement "No pipes specified"
  else
    let validPipes := pipeTypes.filter fun p => decide (0 < p.externalDiameter ∧ 0 < p.length)
    if validPipes.isEmpty then
      errorArrangement "No valid pipes"
    else
      let spacing := minSpace
      let scan := createNestedGroups validPipes allowance
      let arrangement := arrangePipesInCrossSection ⟨volume.width, volume.height⟩ scan.1 scan.2
        spacing volume.length volume.weightCapacity
      -- `if (boxes && boxes.length > 0) arrangeBoxes(arrangement, ...)`:
      -- `arrangeBoxes` is an empty TODO stub, so both branches return `arrangement`.
      if boxes.isEmpty then arrangement else arrangement

/-! ## Container aggregator (`src/utils/calculations.js`) -/

/-- A raw pipe row as consumed by `calculatePipeResult`: dimensions in mm,
demand in meters, weight in kg/m.  Missing numeric fields default to `0` in
the source (`pipe.externalDiameter || 0` and so on); the embedding takes the
already-defaulted values. -/
structure PipeSpec where
  id : ℕ
  externalDiameter : ℚ
  wallThickness : ℚ
  standardLength : ℚ
  quantityInMeters : ℚ
  weightPerMeter : ℚ
deriving DecidableEq, Repr

/-- The per-pipe result record of `calculatePipeResult`. -/
structure PipeResult where
  id : ℕ
  externalDiameterMm : ℚ
  internalDiameterMm : ℚ
  wallThicknessMm : ℚ
  externalDiameter : ℚ
  internalDiameter : ℚ
  wallThickness : ℚ
  standardLengthCm : ℚ
  standardLengthM : ℚ
  quantityInMeters : ℚ
  numberOfPipes : ℤ
  weightPerMeter : ℚ
  totalWeight : ℚ
  volumeCm3 : ℝ
  volumeM3 : ℝ
  pipesPerRow : ℤ
  pipesPerColumn : ℤ
  pipesPerCrossSection : ℤ
  pipesAlongLength : ℤ
  pipesPerContainer : ℤ
  pipeFitsInLength : Bool

/-- Translation of `calculatePipeResult(pipe, volume)` (pipe dimensions mm,
container dimensions cm). -/
noncomputable def calculatePipeResult (pipe : PipeSpec) (volume : Volume) : PipeResult :=
  let externalDiameterMm := pipe.externalDiameter
  let wallThicknessMm := pipe.wallThickness
  let internalDiameterMm := externalDiameterMm - 2 * wallThicknessMm
  let standardLengthMm := pipe.standardLength
  let quantityInMeters := pipe.quantityInMeters
  let weightPerMeter := pipe.weightPerMeter
  let externalDiameterCm := externalDiameterMm / 10
  let standardLengthCm := standardLengthMm / 10
  let standardLengthM := standardLengthMm / 1000
  let numberOfPipes : ℤ := if 0 < standardLengthM then ⌈quantityInMeters / standardLengthM⌉ else 0
  let totalWeight := quantityInMeters * weightPerMeter
  let radiusCm := externalDiameterCm / 2
  let totalLengthCm := quantityInMeters * 100
  let volumeCm3 : ℝ := Real.pi * radiusCm * radiusCm * totalLengthCm
  let volumeM3 : ℝ := volumeCm3 / 1000000
  let packing : ℤ × ℤ × ℤ × ℤ × ℤ × Bool :=
    if 0 < externalDiameterCm ∧ 0 < standardLengthCm then
      let pipesPerRow : ℤ := ⌊volume.width / externalDiameterCm⌋
      let pipesPerColumn : ℤ := ⌊volume.height / externalDiameterCm⌋
      let pipesPerCrossSection := pipesPerRow * pipesPerColumn
      let pipeFitsInLength := standardLengthCm ≤ volume.length
      let pipesAlongLength : ℤ :=
        if pipeFitsInLength then ⌊volume.length / standardLengthCm⌋ else 0
      (pipesPerRow, pipesPerColumn, pipesPerCrossSection, pipesAlongLength,
        pipesPerCrossSection * pipesAlongLength, decide pipeFitsInLength)
    else (0, 0, 0, 0, 0, false)
  { id := pipe.id,
    externalDiameterMm := externalDiameterMm, internalDiameterMm := internalDiameterMm,
    wallThicknessMm := wallThicknessMm,
    externalDiameter := externalDiameterCm, internalDiameter := internalDiameterMm / 10,
    wallThickness := wallThicknessMm / 10,
    standardLengthCm := standardLengthCm, standardLengthM := standardLengthM,
    quantityInMeters := quantityInMeters, numberOfPipes := numberOfPipes,
    weightPerMeter := weightPerMeter, totalWeight := totalWeight,
    volumeCm3 := volumeCm3, volumeM3 := volumeM3,
    pipesPerRow := packing.1, pipesPerColumn := packing.2.1,
    pipesPerCrossSection := packing.2.2.1, pipesAlongLength := packing.2.2.2.1,
    pipesPerContainer := packing.2.2.2.2.1, pipeFitsInLength := packing.2.2.2.2.2 }

/-- An entry of `packingDetails` (`Infinity` embedded as `⊤`; the fields that
only some branches set are `Option`s). -/
structure PackingDetail where
  diameterMm : ℚ
  pipesNeeded : ℤ
  pipesPerContainer : ℤ
  containersNeeded : WithTop ℤ
  error : Option String := none
  pipesPerRow : Option ℤ := none
  pipesPerColumn : Option ℤ := none
  pipesAlongLength : Option ℤ := none
  pipesPerCrossSection : Option ℤ := none

/-- The result record of `calculateVolumesNeededByPacking`. -/
structure VolumesNeeded where
  total : WithTop ℤ
  byPacking : WithTop ℤ
  byWeight : ℤ
  limitingFactor : String
  volumeRatio : ℝ
  weightRatio : ℚ
  packingDetails : List PackingDetail
  error : Option String := none

/-- One step of the per-pipe loop of `calculateVolumesNeededByPacking`:
skip undemanded pipes; a pipe longer than the container or with
non-positive per-container capacity forces `Infinity`; otherwise take the
ceiling of demand over capacity and keep the running maximum. -/
def aggStep (volume : Volume) (st : WithTop ℤ × List PackingDetail) (pipe : PipeResult) :
    WithTop ℤ × List PackingDetail :=
  if pipe.numberOfPipes = 0 then st
  else if volume.length < pipe.standardLengthCm then
    (⊤, st.2 ++ [{ diameterMm := pipe.externalDiameterMm,
                   error := some "Pipe length exceeds container length",
                   pipesNeeded := pipe.numberOfPipes, pipesPerContainer := 0,
                   containersNeeded := ⊤ }])
  else if pipe.pipesPerContainer ≤ 0 then
    (⊤, st.2 ++ [{ diameterMm := pipe.externalDiameterMm,
                   error := some "Pipe diameter exceeds container dimensions",
                   pipesNeeded := pipe.numberOfPipes, pipesPerContainer := 0,
                   containersNeeded := ⊤ }])
  else
    let containersNeeded : ℤ := ⌈(pipe.numberOfPipes : ℚ) / (pipe.pipesPerContainer : ℚ)⌉
    (max st.1 (containersNeeded : WithTop ℤ),
      st.2 ++ [{ diameterMm := pipe.externalDiameterMm,
                 pipesNeeded := pipe.numberOfPipes, pipesPerContainer := pipe.pipesPerContainer,
                 containersNeeded := (containersNeeded : WithTop ℤ),
                 pipesPerRow := some pipe.pipesPerRow, pipesPerColumn := some pipe.pipesPerColumn,
                 pipesAlongLength := some pipe.pipesAlongLength,
                 pipesPerCrossSection := some pipe.pipesPerCrossSection }])

/-- Translation of `calculateVolumesNeededByPacking(pipeResults, totalWeight,
volume)`. -/
noncomputable def calculateVolumesNeededByPacking (pipeResults : List PipeResult)
    (totalWeight : ℚ) (volume : Volume) : VolumesNeeded :=
  let containerVolumeM3 : ℚ := volume.width * volume.height * volume.length / 1000000
  if containerVolumeM3 ≤ 0 then
    { total := 0, byPacking := 0, byWeight := 0, limitingFactor := "none",
      volumeRatio := 0, weightRatio := 0, packingDetails := [], error := none }
  else
    let scan := pipeResults.foldl (aggStep volume) (0, [])
    let maxContainersByPacking := scan.1
    let weightRatio : ℚ :=
      if 0 < volume.weightCapacity then totalWeight / volume.weightCapacity else 0
    let byWeight : ℤ := if 0 < volume.weightCapacity then ⌈weightRatio⌉ else 0
    let volumeRatio : ℝ :=
      (pipeResults.map fun p => p.volumeM3).sum / (containerVolumeM3 : ℝ)
    if maxContainersByPacking = ⊤ then
      { total := ⊤, byPacking := ⊤, byWeight := byWeight, limitingFactor := "packing",
        volumeRatio := volumeRatio, weightRatio := weightRatio, packingDetails := scan.2,
        error := some "Some pipes cannot fit in the container" }
    else
      { total := max (max maxContainersByPacking (byWeight : WithTop ℤ)) 1,
        byPacking := maxContainersByPacking, byWeight := byWeight,
        limitingFactor :=
          if (byWeight : WithTop ℤ) < maxContainersByPacking then "packing"
          else if maxContainersByPacking < (byWeight : WithTop ℤ) then "weight"
          else if 0 < maxContainersByPacking ∧ maxContainersByPacking = (byWeight : WithTop ℤ)
            then "both"
          else "none",
        volumeRatio := volumeRatio, weightRatio := weightRatio, packingDetails := scan.2,
        error := none }

/-- The aggregation pipeline of `calculateResults`: per-pipe results from
`calculatePipeResult`, then `calculateVolumesNeededByPacking` over them. -/
noncomputable def aggregate (pipes : List PipeSpec) (totalWeight : ℚ) (volume : Volume) :
    VolumesNeeded :=
  calculateVolumesNeededByPacking (pipes.map (calculatePipeResult · volume)) totalWeight volume

/-! ## Engine invariants -/

/-- Well-formedness of a single placed circle: its stored effective radius is
its bare radius plus half the spacing, and it lies inside the rectangle with
that effective radius. -/
def CircOK (spacing : ℚ) (w h : ℝ) (c : Circle) : Prop :=
  c.effectiveRadius = c.radius + (spacing : ℝ) / 2 ∧
  0 ≤ c.x - c.effectiveRadius ∧ c.x + c.effectiveRadius ≤ w ∧
  0 ≤ c.y - c.effectiveRadius ∧ c.y + c.effectiveRadius ≤ h

/-- Non-overlap of two placed circles up to the engine's 0.001 tolerance. -/
def Sep (c₁ c₂ : Circle) : Prop :=
  c₁.effectiveRadius + c₂.effectiveRadius - 0.001 ≤
    Real.sqrt ((c₂.x - c₁.x) ^ 2 + (c₂.y - c₁.y) ^ 2)

/-- The engine's placement invariant: all placed circles are well-formed and
pairwise separated. -/
def PlacedInv (spacing : ℚ) (w h : ℝ) (placed : List Circle) : Prop :=
  (∀ c ∈ placed, CircOK spacing w h c) ∧ placed.Pairwise Sep

/-! ## Concrete instances used by counterexamples and witnesses -/

/-- A degenerate container: width 0 (length 100, height 100, no weight cap). -/
def cw10 : Volume := ⟨100, 0, 100, 0⟩

/-- A pipe row with positive demand (5 m of 1 m pipes) used against `cw10`. -/
def ps10 : PipeSpec := ⟨1, 100, 10, 1000, 5, 2⟩

/-- A well-formed 100×100×100 cm container with no weight cap. -/
def vol7 : Volume := ⟨100, 100, 100, 0⟩

/-- A pipe row that fits `vol7` (Ø100 mm, 1 m standard length, 10 m demand). -/
def ps7 : PipeSpec := ⟨1, 100, 10, 1000, 10, 2⟩

/-- A pipe row whose standard length (2 m = 200 cm) exceeds `vol7`'s length. -/
def ps6 : PipeSpec := ⟨1, 100, 10, 2000, 10, 2⟩

/-- Scenario-D pipe: Ø2 cm, length 100 cm, 30 kg/m, so 30 kg per placed unit. -/
def LP : Pipe := ⟨1, 2, 1, 100, 30⟩

/-- The packing template of `LP`. -/
def tLP : Template := standaloneTemplate LP

/-- Scenario-D cross-section: 8 cm × 2 cm, geometric room for four Ø2 circles. -/
def csD : Rect := ⟨8, 2⟩

/-- First circle placed in the scenario-D run. -/
def cD1 : Circle := ⟨1, 1, 1, 1, tLP⟩

/-- Second circle placed in the scenario-D run. -/
def cD2 : Circle := ⟨3, 1, 1, 1, tLP⟩

/-- Third circle placed in the scenario-D run. -/
def cD3 : Circle := ⟨5, 1, 1, 1, tLP⟩

/-- Initial state of the placement loop. -/
def stD0 : PackState := ⟨[], [], 0, 0, false, false, 0, true⟩

/-- Scenario-D state after round 1. -/
def stD1 : PackState := ⟨[cD1], [(1, ⟨LP, 1, 100, 30⟩)], 1, 30, false, false, 0, true⟩

/-- Scenario-D state after round 2. -/
def stD2 : PackState := ⟨[cD1, cD2], [(1, ⟨LP, 2, 200, 60⟩)], 2, 60, false, false, 0, true⟩

/-- Scenario-D state after round 3. -/
def stD3 : PackState := ⟨[cD1, cD2, cD3], [(1, ⟨LP, 3, 300, 90⟩)], 3, 90, false, false, 0, true⟩

/-- Scenario-D state after round 4: a position for a fourth circle exists, but
placing it would raise the weight to 120 > 100, so only the flag is set. -/
def stD4 : PackState := ⟨[cD1, cD2, cD3], [(1, ⟨LP, 3, 300, 90⟩)], 3, 90, true, false, 0, false⟩

/-- The settled empty state (no placement possible in round 1). -/
def stDF : PackState := ⟨[], [], 0, 0, false, false, 0, false⟩

/-- A volume with negative width: JavaScript's falsiness validity check lets
it through (`!(-5)` is false). -/
def cw8 : Volume := ⟨10, -5, 10, 0⟩

/-- The cross-section derived from `cw8`. -/
def csE : Rect := ⟨-5, 10⟩

/-- A volume with width exactly 0, caught by the falsiness validity check. -/
def vol8 : Volume := ⟨10, 0, 10, 0⟩

/-- Counterexample pipes for the overall-telescoping-type claim: the outer
pipe accepts first a longer ("partial") and then a shorter ("full") member. -/
def sp1 : Pipe := ⟨1, 100, 90, 200, 1⟩

/-- Second counterexample pipe: fits inside `sp1` but is longer (300 > 200). -/
def sp2 : Pipe := ⟨2, 80, 10, 300, 1⟩

/-- Third counterexample pipe: fits inside `sp1` and is shorter (100 ≤ 200). -/
def sp3 : Pipe := ⟨3, 70, 5, 100, 1⟩

/-- Resolver output record for `sp1` on `[sp1, sp2, sp3]` with allowance 0. -/
def RA1 : RPipe :=
  { pipe := sp1, telescopedWith := [2, 3], telescopingType := "full", telescopedIn := none,
    effectiveDiameter := 100, effectiveLength := 200 }

/-- Resolver output record for `sp2` on `[sp1, sp2, sp3]` with allowance 0. -/
def RA2 : RPipe :=
  { pipe := sp2, telescopedWith := [], telescopingType := "nested", telescopedIn := some 1,
    effectiveDiameter := 80, effectiveLength := 300 }

/-- Resolver output record for `sp3` on `[sp1, sp2, sp3]` with allowance 0. -/
def RA3 : RPipe :=
  { pipe := sp3, telescopedWith := [], telescopingType := "nested", telescopedIn := some 1,
    effectiveDiameter := 70, effectiveLength := 100 }

/-- Scenario-B outer pipe (Ø20, length 200). -/
def pB1 : Pipe := ⟨1, 20, 16, 200, 1⟩

/-- Scenario-B inner pipe (Ø15, length 300, partial telescoping). -/
def pB2 : Pipe := ⟨2, 15, 10, 300, 1⟩

/-- Resolver output record for `pB1` on `[pB1, pB2]` with allowance 0. -/
def RB1 : RPipe :=
  { pipe := pB1, telescopedWith := [2], telescopingType := "partial", telescopedIn := none,
    effectiveDiameter := 20, effectiveLength := 300 }

/-- Resolver output record for `pB2` on `[pB1, pB2]` with allowance 0. -/
def RB2 : RPipe :=
  { pipe := pB2, telescopedWith := [], telescopingType := "nested", telescopedIn := some 1,
    effectiveDiameter := 15, effectiveLength := 300 }

/-! ## Resolver lemmas -/

theorem effRec_pipe (s : List TPipe) (r : TPipe) : (effRec s r).pipe = r.pipe := by
  unfold effRec
  split
  · rfl
  · dsimp only
    split <;> rfl

theorem effRec_telescopedWith (s : List TPipe) (r : TPipe) :
    (effRec s r).telescopedWith = r.telescopedWith := by
  unfold effRec
  split
  · rfl
  · dsimp only
    split <;> rfl

theorem effRec_telescopingType (s : List TPipe) (r : TPipe) :
    (effRec s r).telescopingType = r.telescopingType := by
  unfold effRec
  split
  · rfl
  · dsimp only
    split <;> rfl

theorem setOuter_map_pipe (s : List TPipe) (oid iid : ℕ) (ty : String) :
    (setOuter s oid iid ty).map (·.pipe) = s.map (·.pipe) := by
  unfold setOuter
  rw [List.map_map]
  exact List.map_congr_left fun r _ => by by_cases h : r.pipe.id = oid <;> simp [h]

theorem setInner_map_pipe (s : List TPipe) (iid oid : ℕ) :
    (setInner s iid oid).map (·.pipe) = s.map (·.pipe) := by
  unfold setInner
  rw [List.map_map]
  exact List.map_congr_left fun r _ => by by_cases h : r.pipe.id = iid <;> simp [h]

theorem setInner_setOuter_eq (s : List TPipe) (oid iid : ℕ) (ty : String) (hne : iid ≠ oid) :
    setInner (setOuter s oid iid ty) iid oid = s.map fun r =>
      if r.pipe.id = oid then
        { r with telescopedWith := r.telescopedWith ++ [iid], telescopingType := ty }
      else if r.pipe.id = iid then
        { r with telescopingType := "nested", telescopedIn := some oid }
      else r := by
  unfold setInner setOuter
  rw [List.map_map]
  apply List.map_congr_left
  intro r _
  simp only [Function.comp]
  split_ifs with h1 h2 h2
  · exact (hne (h2.symm.trans h1)).elim
  · rfl
  · rfl
  · rfl

theorem ScanInv_accept (pipes rest : List Pipe) (outer inner : Pipe)
    (hinj : ∀ ⦃x⦄, x ∈ pipes → ∀ ⦃y⦄, y ∈ pipes → Pipe.id x = Pipe.id y → x = y)
    (hout : outer ∈ pipes) (hir : inner ∈ rest) (hrp : ∀ p ∈ rest, p ∈ pipes)
    (houtid : outer.id ∉ rest.map (·.id))
    (s : List TPipe) (hinv : ScanInv pipes rest s) :
    ScanInv pipes rest
      (setInner (setOuter s outer.id inner.id (classify outer inner)) inner.id outer.id) := by
  obtain ⟨hC, hG, hE⟩ := hinv
  have hin : inner ∈ pipes := hrp inner hir
  have hneq : inner.id ≠ outer.id := by
    intro h
    exact houtid (h ▸ List.mem_map_of_mem (·.id) hir)
  rw [setInner_setOuter_eq s outer.id inner.id _ hneq]
  refine ⟨?_, ?_, ?_⟩
  · rw [List.map_map, ← hC]
    apply List.map_congr_left
    intro r _
    simp only [Function.comp]
    by_cases h1 : r.pipe.id = outer.id
    · rw [if_pos h1]
    · rw [if_neg h1]
      by_cases h2 : r.pipe.id = inner.id
      · rw [if_pos h2]
      · rw [if_neg h2]
  · intro r' hr'
    obtain ⟨r, hr, hr'eq⟩ := List.mem_map.mp hr'
    have hrpipe : r.pipe ∈ pipes := by
      rw [← hC]; exact List.mem_map_of_mem (·.pipe) hr
    by_cases h1 : r.pipe.id = outer.id
    · -- the outer pipe's record: type and last member were just written
      have hrout : r.pipe = outer := hinj hrpipe hout h1
      rw [if_pos h1] at hr'eq
      subst hr'eq
      intro lastId hlast
      have hlast' : (r.telescopedWith ++ [inner.id]).getLast? = some lastId := hlast
      simp only [List.getLast?_concat, Option.some.injEq] at hlast'
      refine ⟨inner, hin, hlast', ?_⟩
      show classify outer inner = classify r.pipe inner
      rw [hrout]
    · rw [if_neg h1] at hr'eq
      by_cases h2 : r.pipe.id = inner.id
      · -- the accepted inner pipe's record: it has no members yet
        rw [if_pos h2] at hr'eq
        subst hr'eq
        intro lastId hlast
        have hlast' : r.telescopedWith.getLast? = some lastId := hlast
        rw [hE inner hir r hr h2] at hlast'
        simp at hlast'
      · rw [if_neg h2] at hr'eq
        subst hr'eq
        exact hG r hr
  · intro p hp r' hr' hid
    obtain ⟨r, hr, hr'eq⟩ := List.mem_map.mp hr'
    by_cases h1 : r.pipe.id = outer.id
    · exfalso
      rw [if_pos h1] at hr'eq
      subst hr'eq
      have hpid : p.id = outer.id := (show r.pipe.id = p.id from hid).symm.trans h1
      exact houtid (hpid ▸ List.mem_map_of_mem (·.id) hp)
    · rw [if_neg h1] at hr'eq
      by_cases h2 : r.pipe.id = inner.id
      · rw [if_pos h2] at hr'eq
        subst hr'eq
        exact hE p hp r hr hid
      · rw [if_neg h2] at hr'eq
        subst hr'eq
        exact hE p hp r hr hid

theorem ScanInv_scanInners (pipes rest : List Pipe) (outer : Pipe) (avail : ℚ)
    (hinj : ∀ ⦃x⦄, x ∈ pipes → ∀ ⦃y⦄, y ∈ pipes → Pipe.id x = Pipe.id y → x = y)
    (hout : outer ∈ pipes) (hrp : ∀ p ∈ rest, p ∈ pipes)
    (houtid : outer.id ∉ rest.map (·.id)) :
    ∀ (inners : List Pipe), (∀ p ∈ inners, p ∈ rest) →
      ∀ s, ScanInv pipes rest s → ScanInv pipes rest (scanInners outer avail inners s) := by
  intro inners
  induction inners with
  | nil => exact fun _ s h => h
  | cons inner irest ih =>
    intro hsub s hinv
    unfold scanInners
    rw [List.foldl_cons]
    by_cases h : inner.externalDiameter ≤ avail
    · rw [if_pos h]
      have step := ScanInv_accept pipes rest outer inner hinj hout
        (hsub inner (List.mem_cons_self _ _)) hrp houtid s hinv
      have := ih (fun p hp => hsub p (List.mem_cons_of_mem _ hp)) _ step
      unfold scanInners at this
      exact this
    · rw [if_neg h]
      have := ih (fun p hp => hsub p (List.mem_cons_of_mem _ hp)) s hinv
      unfold scanInners at this
      exact this

theorem ScanInv_scanOuters (pipes : List Pipe) (allowance : ℚ)
    (hinj : ∀ ⦃x⦄, x ∈ pipes → ∀ ⦃y⦄, y ∈ pipes → Pipe.id x = Pipe.id y → x = y) :
    ∀ (rem : List Pipe) (s : List TPipe), (∀ p ∈ rem, p ∈ pipes) →
      ((rem.map (·.id)).Nodup) → ScanInv pipes rem s →
      (scanOuters allowance rem s).map (·.pipe) = pipes ∧
        ∀ r ∈ scanOuters allowance rem s, GoodRec pipes r := by
  intro rem
  induction rem with
  | nil => exact fun s _ _ h => ⟨h.1, h.2.1⟩
  | cons outer rest ih =>
    intro s hsub hnd hinv
    have hsub' : ∀ p ∈ rest, p ∈ pipes := fun p hp => hsub p (List.mem_cons_of_mem _ hp)
    have hnd' : ((rest.map (·.id)).Nodup) := by
      simp only [List.map_cons, List.nodup_cons] at hnd
      exact hnd.2
    have houtid : outer.id ∉ rest.map (·.id) := by
      simp only [List.map_cons, List.nodup_cons] at hnd
      exact hnd.1
    have hinv' : ScanInv pipes rest s :=
      ⟨hinv.1, hinv.2.1, fun p hp => hinv.2.2 p (List.mem_cons_of_mem _ hp)⟩
    simp only [scanOuters]
    by_cases h : outer.internalDiameter - 2 * allowance ≤ 0
    · rw [if_pos h]
      exact ih s hsub' hnd' hinv'
    · rw [if_neg h]
      exact ih _ hsub' hnd'
        (ScanInv_scanInners pipes rest outer _ hinj (hsub outer (List.mem_cons_self _ _))
          hsub' houtid rest (fun p hp => hp) s hinv')

theorem resolver_state_props (pipes : List Pipe) (allowance : ℚ)
    (hnd : (pipes.map (·.id)).Nodup) :
    ((scanOuters allowance (sortPipesDesc pipes) (initState pipes)).map (·.pipe) = pipes) ∧
      ∀ r ∈ scanOuters allowance (sortPipesDesc pipes) (initState pipes), GoodRec pipes r := by
  have hperm : (sortPipesDesc pipes).Perm pipes := List.mergeSort_perm _ _
  have hinj := List.inj_on_of_nodup_map hnd
  refine ScanInv_scanOuters pipes allowance hinj (sortPipesDesc pipes) (initState pipes)
    (fun p hp => hperm.mem_iff.mp hp) ?_ ⟨?_, ?_, ?_⟩
  · exact ((hperm.map (·.id)).nodup_iff).mpr hnd
  · unfold initState
    rw [List.map_map]
    exact (List.map_congr_left fun p _ => rfl).trans (List.map_id _)
  · intro r hr lastId hlast
    simp only [initState, List.mem_map] at hr
    obtain ⟨p, _, rfl⟩ := hr
    simp at hlast
  · intro p _ r hr _
    simp only [initState, List.mem_map] at hr
    obtain ⟨q, _, rfl⟩ := hr
    rfl

theorem qMax_maximum (q : ℚ) (l : List ℚ) : qMax q l.maximum = l.foldr max q := by
  induction l with
  | nil => rfl
  | cons a l ih =>
    rw [List.maximum_cons, List.foldr_cons, ← ih]
    cases hM : l.maximum with
    | bot => simp [qMax, max_comm]
    | coe b =>
      have : (a : WithBot ℚ) ⊔ (b : WithBot ℚ) = ((max a b : ℚ) : WithBot ℚ) := by
        norm_cast
      rw [this]
      simp only [qMax]
      rw [max_left_comm]

theorem resolvedMembers_effectivize (st : List TPipe) (r₀ : TPipe) :
    resolvedMembers (effectivize st) (effRec st r₀) =
      (r₀.telescopedWith.filterMap fun i => st.find? fun q => q.pipe.id = i).map (effRec st) := by
  unfold resolvedMembers effectivize
  rw [effRec_telescopedWith]
  have hfind : ∀ i : ℕ,
      (st.map (effRec st)).find? (fun q => q.pipe.id = i) =
        (st.find? fun q => q.pipe.id = i).map (effRec st) := by
    intro i
    rw [List.find?_map]
    have hpred : ((fun q : RPipe => decide (q.pipe.id = i)) ∘ effRec st) =
        fun q : TPipe => decide (q.pipe.id = i) := by
      funext q
      simp [Function.comp, effRec_pipe]
    rw [hpred]
  simp only [hfind]
  exact (List.map_filterMap _ _ _).symm

theorem effRec_of_full (s : List TPipe) (r : TPipe) (h : r.telescopingType = "full") :
    effRec s r =
      { pipe := r.pipe, telescopedWith := r.telescopedWith,
        telescopingType := r.telescopingType, telescopedIn := r.telescopedIn,
        effectiveDiameter := r.pipe.externalDiameter, effectiveLength := r.pipe.length } := by
  simp [effRec, h]

theorem effRec_partial_case (s : List TPipe) (r : TPipe) (h : r.telescopingType = "partial") :
    effRec s r =
      { pipe := r.pipe, telescopedWith := r.telescopedWith,
        telescopingType := r.telescopingType, telescopedIn := r.telescopedIn,
        effectiveDiameter := qMax r.pipe.externalDiameter
          (((r.telescopedWith.filterMap fun i => s.find? fun q => q.pipe.id = i).map
            fun p => p.pipe.externalDiameter).maximum),
        effectiveLength := qMax r.pipe.length
          (((r.telescopedWith.filterMap fun i => s.find? fun q => q.pipe.id = i).map
            fun p => p.pipe.length).maximum) } := by
  simp [effRec, h]

theorem str_partial_ne_none : ("partial" : String) ≠ "none" := by decide

theorem str_partial_ne_nested : ("partial" : String) ≠ "nested" := by decide

theorem str_partial_ne_full : ("partial" : String) ≠ "full" := by decide

theorem str_full_ne_none : ("full" : String) ≠ "none" := by decide

theorem str_full_ne_nested : ("full" : String) ≠ "nested" := by decide

theorem sortA : sortPipesDesc [sp1, sp2, sp3] = [sp1, sp2, sp3] :=
  List.mergeSort_of_sorted (by norm_num [sp1, sp2, sp3])

theorem resolverEvalA :
    findTelescopingPossibilitiesPipes [sp1, sp2, sp3] 0 = [RA1, RA2, RA3] := by
  unfold findTelescopingPossibilitiesPipes
  rw [sortA]
  norm_num [scanOuters, scanInners, setOuter, setInner, initState, effectivize, effRec,
    classify, qMax, sp1, sp2, sp3, RA1, RA2, RA3]

theorem sortB : sortPipesDesc [pB1, pB2] = [pB1, pB2] :=
  List.mergeSort_of_sorted (by norm_num [pB1, pB2])

theorem resolverEvalB :
    findTelescopingPossibilitiesPipes [pB1, pB2] 0 = [RB1, RB2] := by
  unfold findTelescopingPossibilitiesPipes
  rw [sortB]
  norm_num [scanOuters, scanInners, setOuter, setInner, initState, effectivize, effRec,
    classify, qMax, pB1, pB2, RB1, RB2, List.maximum_cons, List.maximum_nil, List.find?,
    List.filterMap_cons, List.filterMap_nil, str_partial_ne_none, str_partial_ne_nested,
    str_partial_ne_full, str_full_ne_none, str_full_ne_nested]

/-- Claim C4, counterexample: on pipes `sp1` (Ø100, length 200, bore 90),
`sp2` (Ø80, length 300) and `sp3` (Ø70, length 100) with allowance 0, the
outer pipe `sp1` nests both `sp2` and `sp3`; member `sp2` is partial
(300 > 200), yet the group's overall `telescopingType` is "full", because the
source overwrites the type on every acceptance and the last accepted member
(`sp3`) is full.  This refutes "a group's overall type is `partial` if any
member is partial". -/
theorem claim4_counterexample :
    ∃ r ∈ findTelescopingPossibilitiesPipes [sp1, sp2, sp3] 0,
      (∃ mid ∈ r.telescopedWith, ∃ m ∈ findTelescopingPossibilitiesPipes [sp1, sp2, sp3] 0,
        m.pipe.id = mid ∧ r.pipe.length < m.pipe.length) ∧
      r.telescopingType ≠ "partial" := by
  rw [resolverEvalA]
  refine ⟨RA1, by simp, ⟨2, by norm_num [RA1], RA2, by simp, ?_, ?_⟩, ?_⟩
  · norm_num [RA2, sp2]
  · norm_num [RA1, RA2, sp1, sp2]
  · show RA1.telescopingType ≠ "partial"
    norm_num [RA1]
    decide

/-- Claim C4 (corrected): in `findTelescopingPossibilities`, each nested
candidate is classified `full` when its length is at most the outer pipe's
length and `partial` otherwise, but the group's overall `telescopingType` is
the classification of the LAST accepted member (the source overwrites the
field on every acceptance), not "partial if any member is partial". -/
theorem claim4_overall_type_is_last_member (pipes : List Pipe) (allowance : ℚ)
    (hnd : (pipes.map (·.id)).Nodup) :
    ∀ r ∈ findTelescopingPossibilitiesPipes pipes allowance,
      ∀ lastId, r.telescopedWith.getLast? = some lastId →
        ∃ m ∈ findTelescopingPossibilitiesPipes pipes allowance,
          m.pipe.id = lastId ∧ r.telescopingType = classify r.pipe m.pipe := by
  intro r hr lastId hlast
  obtain ⟨hC, hG⟩ := resolver_state_props pipes allowance hnd
  unfold findTelescopingPossibilitiesPipes effectivize at hr ⊢
  obtain ⟨r₀, hr₀, rfl⟩ := List.mem_map.mp hr
  rw [effRec_telescopedWith] at hlast
  obtain ⟨m, hm, hmid, hty⟩ := hG r₀ hr₀ lastId hlast
  have hmem : m ∈ (scanOuters allowance (sortPipesDesc pipes) (initState pipes)).map (·.pipe) :=
    hC.symm ▸ hm
  obtain ⟨m₀, hm₀, hm₀eq⟩ := List.mem_map.mp hmem
  refine ⟨effRec _ m₀, List.mem_map_of_mem _ hm₀, ?_, ?_⟩
  · rw [effRec_pipe, hm₀eq, hmid]
  · rw [effRec_telescopingType, effRec_pipe, effRec_pipe, hm₀eq]
    exact hty

/-- Witness for `claim4_overall_type_is_last_member` at the concrete pipes
`[sp1, sp2, sp3]`: the outer record `RA1` has last accepted member `sp3`
(id 3, length 100 ≤ 200), so its type is "full". -/
theorem claim4_overall_type_witness :
    (([sp1, sp2, sp3].map (·.id)).Nodup) ∧
    RA1 ∈ findTelescopingPossibilitiesPipes [sp1, sp2, sp3] 0 ∧
    RA1.telescopedWith.getLast? = some 3 ∧
    ∃ m ∈ findTelescopingPossibilitiesPipes [sp1, sp2, sp3] 0,
      m.pipe.id = 3 ∧ RA1.telescopingType = classify RA1.pipe m.pipe := by
  have hnd : (([sp1, sp2, sp3].map (·.id)).Nodup) := by norm_num [sp1, sp2, sp3]
  have hmem : RA1 ∈ findTelescopingPossibilitiesPipes [sp1, sp2, sp3] 0 := by
    rw [resolverEvalA]; simp
  exact ⟨hnd, hmem, by norm_num [RA1],
    claim4_overall_type_is_last_member [sp1, sp2, sp3] 0 hnd RA1 hmem 3 (by norm_num [RA1])⟩

/-- Claim C5 (confirmed): for every record produced by the resolver, if its
type is "full" the effective dimensions are the outer pipe's own dimensions;
if "partial" they are the maximum of the outer pipe's dimension and the
members' dimensions (members resolved by id in the output, exactly as the
source resolves them in its pipe map). -/
theorem claim5_effective_dimensions (pipes : List Pipe) (allowance : ℚ) :
    ∀ r ∈ findTelescopingPossibilitiesPipes pipes allowance,
      (r.telescopingType = "full" →
        r.effectiveDiameter = r.pipe.externalDiameter ∧ r.effectiveLength = r.pipe.length) ∧
      (r.telescopingType = "partial" →
        r.effectiveDiameter =
          ((resolvedMembers (findTelescopingPossibilitiesPipes pipes allowance) r).map
            (·.pipe.externalDiameter)).foldr max r.pipe.externalDiameter ∧
        r.effectiveLength =
          ((resolvedMembers (findTelescopingPossibilitiesPipes pipes allowance) r).map
            (·.pipe.length)).foldr max r.pipe.length) := by
  intro r hr
  unfold findTelescopingPossibilitiesPipes at hr ⊢
  rw [show effectivize (scanOuters allowance (sortPipesDesc pipes) (initState pipes)) =
    (scanOuters allowance (sortPipesDesc pipes) (initState pipes)).map
      (effRec (scanOuters allowance (sortPipesDesc pipes) (initState pipes))) from rfl] at hr
  obtain ⟨r₀, hr₀, rfl⟩ := List.mem_map.mp hr
  constructor
  · intro hfull
    have h0 : r₀.telescopingType = "full" := (effRec_telescopingType _ r₀) ▸ hfull
    rw [effRec_of_full _ r₀ h0]
    exact ⟨rfl, rfl⟩
  · intro hpart
    have h0 : r₀.telescopingType = "partial" := (effRec_telescopingType _ r₀) ▸ hpart
    rw [resolvedMembers_effectivize, List.map_map, List.map_map]
    rw [show ((fun x : RPipe => x.pipe.externalDiameter) ∘
        effRec (scanOuters allowance (sortPipesDesc pipes) (initState pipes))) =
      (fun p : TPipe => p.pipe.externalDiameter) from
        funext fun p => by simp [Function.comp, effRec_pipe]]
    rw [show ((fun x : RPipe => x.pipe.length) ∘
        effRec (scanOuters allowance (sortPipesDesc pipes) (initState pipes))) =
      (fun p : TPipe => p.pipe.length) from
        funext fun p => by simp [Function.comp, effRec_pipe]]
    rw [← qMax_maximum, ← qMax_maximum]
    rw [effRec_partial_case _ r₀ h0]
    exact ⟨rfl, rfl⟩

/-- Witness for `claim5_effective_dimensions` on the partial scenario
(outer Ø20 length 200, inner Ø15 length 300, allowance 0): the outer record
`RB1` gets `effectiveDiameter = 20 = max(20, 15)` and
`effectiveLength = 300 = max(200, 300)`. -/
theorem claim5_effective_dimensions_witness :
    RB1 ∈ findTelescopingPossibilitiesPipes [pB1, pB2] 0 ∧
    ((RB1.telescopingType = "full" →
        RB1.effectiveDiameter = RB1.pipe.externalDiameter ∧
          RB1.effectiveLength = RB1.pipe.length) ∧
      (RB1.telescopingType = "partial" →
        RB1.effectiveDiameter =
          ((resolvedMembers (findTelescopingPossibilitiesPipes [pB1, pB2] 0) RB1).map
            (·.pipe.externalDiameter)).foldr max RB1.pipe.externalDiameter ∧
        RB1.effectiveLength =
          ((resolvedMembers (findTelescopingPossibilitiesPipes [pB1, pB2] 0) RB1).map
            (·.pipe.length)).foldr max RB1.pipe.length)) := by
  have hmem : RB1 ∈ findTelescopingPossibilitiesPipes [pB1, pB2] 0 := by
    rw [resolverEvalB]; simp
  exact ⟨hmem, claim5_effective_dimensions [pB1, pB2] 0 RB1 hmem⟩

/-! ## Aggregator lemmas -/

theorem calcVol_degenerate (pipeResults : List PipeResult) (totalWeight : ℚ) (volume : Volume)
    (h : volume.width * volume.height * volume.length / 1000000 ≤ 0) :
    calculateVolumesNeededByPacking pipeResults totalWeight volume =
      { total := 0, byPacking := 0, byWeight := 0, limitingFactor := "none",
        volumeRatio := 0, weightRatio := 0, packingDetails := [], error := none } := by
  simp only [calculateVolumesNeededByPacking]
  rw [if_pos h]

theorem calcVol_infinite (pipeResults : List PipeResult) (totalWeight : ℚ) (volume : Volume)
    (hpos : ¬(volume.width * volume.height * volume.length / 1000000 ≤ 0))
    (htop : (pipeResults.foldl (aggStep volume) ((0 : WithTop ℤ), ([] : List PackingDetail))).1
      = ⊤) :
    calculateVolumesNeededByPacking pipeResults totalWeight volume =
      { total := ⊤, byPacking := ⊤,
        byWeight := if 0 < volume.weightCapacity then
            ⌈if 0 < volume.weightCapacity then totalWeight / volume.weightCapacity else 0⌉
          else 0,
        limitingFactor := "packing",
        volumeRatio := (pipeResults.map fun p => p.volumeM3).sum /
          ((volume.width * volume.height * volume.length / 1000000 : ℚ) : ℝ),
        weightRatio := if 0 < volume.weightCapacity then totalWeight / volume.weightCapacity
          else 0,
        packingDetails :=
          (pipeResults.foldl (aggStep volume) ((0 : WithTop ℤ), ([] : List PackingDetail))).2,
        error := some "Some pipes cannot fit in the container" } := by
  simp only [calculateVolumesNeededByPacking]
  rw [if_neg hpos, if_pos htop]

theorem calcVol_finite (pipeResults : List PipeResult) (totalWeight : ℚ) (volume : Volume)
    (hpos : ¬(volume.width * volume.height * volume.length / 1000000 ≤ 0))
    (hfin : ¬((pipeResults.foldl (aggStep volume) ((0 : WithTop ℤ), ([] : List PackingDetail))).1
      = ⊤)) :
    calculateVolumesNeededByPacking pipeResults totalWeight volume =
      { total := max (max
            (pipeResults.foldl (aggStep volume) ((0 : WithTop ℤ), ([] : List PackingDetail))).1
            ((if 0 < volume.weightCapacity then
                ⌈if 0 < volume.weightCapacity then totalWeight / volume.weightCapacity else 0⌉
              else 0 : ℤ) : WithTop ℤ)) 1,
        byPacking :=
          (pipeResults.foldl (aggStep volume) ((0 : WithTop ℤ), ([] : List PackingDetail))).1,
        byWeight := if 0 < volume.weightCapacity then
            ⌈if 0 < volume.weightCapacity then totalWeight / volume.weightCapacity else 0⌉
          else 0,
        limitingFactor :=
          if ((if 0 < volume.weightCapacity then
                ⌈if 0 < volume.weightCapacity then totalWeight / volume.weightCapacity else 0⌉
              else 0 : ℤ) : WithTop ℤ) <
              (pipeResults.foldl (aggStep volume)
                ((0 : WithTop ℤ), ([] : List PackingDetail))).1 then "packing"
          else if (pipeResults.foldl (aggStep volume)
                ((0 : WithTop ℤ), ([] : List PackingDetail))).1 <
              ((if 0 < volume.weightCapacity then
                  ⌈if 0 < volume.weightCapacity then totalWeight / volume.weightCapacity else 0⌉
                else 0 : ℤ) : WithTop ℤ) then "weight"
          else if (0 : WithTop ℤ) <
                (pipeResults.foldl (aggStep volume)
                  ((0 : WithTop ℤ), ([] : List PackingDetail))).1 ∧
              (pipeResults.foldl (aggStep volume)
                ((0 : WithTop ℤ), ([] : List PackingDetail))).1 =
                ((if 0 < volume.weightCapacity then
                    ⌈if 0 < volume.weightCapacity then totalWeight / volume.weightCapacity
                      else 0⌉
                  else 0 : ℤ) : WithTop ℤ) then "both"
          else "none",
        volumeRatio := (pipeResults.map fun p => p.volumeM3).sum /
          ((volume.width * volume.height * volume.length / 1000000 : ℚ) : ℝ),
        weightRatio := if 0 < volume.weightCapacity then totalWeight / volume.weightCapacity
          else 0,
        packingDetails :=
          (pipeResults.foldl (aggStep volume) ((0 : WithTop ℤ), ([] : List PackingDetail))).2,
        error := none } := by
  simp only [calculateVolumesNeededByPacking]
  rw [if_neg hpos, if_neg hfin]

theorem aggStep_top (volume : Volume) (st : WithTop ℤ × List PackingDetail) (p : PipeResult)
    (h : st.1 = ⊤) : (aggStep volume st p).1 = ⊤ := by
  unfold aggStep
  split_ifs
  · exact h
  · rfl
  · rfl
  · show max st.1 _ = ⊤
    rw [h]
    exact max_eq_left le_top

theorem foldl_aggStep_top (volume : Volume) (l : List PipeResult) :
    ∀ st, st.1 = ⊤ → ((l.foldl (aggStep volume) st).1 = ⊤) := by
  induction l with
  | nil => exact fun st h => h
  | cons p t ih =>
    intro st h
    rw [List.foldl_cons]
    exact ih _ (aggStep_top volume st p h)

theorem aggStep_trigger (volume : Volume) (st : WithTop ℤ × List PackingDetail) (p : PipeResult)
    (hn : p.numberOfPipes ≠ 0)
    (hbad : p.pipesPerContainer ≤ 0 ∨ volume.length < p.standardLengthCm) :
    (aggStep volume st p).1 = ⊤ := by
  unfold aggStep
  rw [if_neg hn]
  by_cases h2 : volume.length < p.standardLengthCm
  · rw [if_pos h2]
  · rw [if_neg h2]
    have hppc : p.pipesPerContainer ≤ 0 := by
      rcases hbad with h | h
      · exact h
      · exact (h2 h).elim
    rw [if_pos hppc]

theorem scan_top_of_trigger (volume : Volume) (l : List PipeResult) (p : PipeResult)
    (hp : p ∈ l) (hn : p.numberOfPipes ≠ 0)
    (hbad : p.pipesPerContainer ≤ 0 ∨ volume.length < p.standardLengthCm) :
    (l.foldl (aggStep volume) ((0 : WithTop ℤ), ([] : List PackingDetail))).1 = ⊤ := by
  obtain ⟨s, t, rfl⟩ := List.append_of_mem hp
  rw [List.foldl_append, List.foldl_cons]
  exact foldl_aggStep_top volume t _ (aggStep_trigger volume _ p hn hbad)

theorem foldl_aggStep_ne_top (volume : Volume) (l : List PipeResult)
    (hgood : ∀ p ∈ l, p.numberOfPipes ≠ 0 →
      0 < p.pipesPerContainer ∧ p.standardLengthCm ≤ volume.length) :
    ∀ st : WithTop ℤ × List PackingDetail, st.1 ≠ ⊤ →
      ((l.foldl (aggStep volume) st).1 ≠ ⊤) := by
  induction l with
  | nil => exact fun st h => h
  | cons p t ih =>
    intro st h
    rw [List.foldl_cons]
    refine ih (fun q hq => hgood q (List.mem_cons_of_mem _ hq)) _ ?_
    unfold aggStep
    by_cases hn : p.numberOfPipes = 0
    · rw [if_pos hn]; exact h
    · obtain ⟨hppc, hfits⟩ := hgood p (List.mem_cons_self _ _) hn
      rw [if_neg hn, if_neg (not_lt.mpr hfits), if_neg (not_le.mpr hppc)]
      show max st.1 _ ≠ ⊤
      rcases max_choice st.1
        ((⌈(p.numberOfPipes : ℚ) / (p.pipesPerContainer : ℚ)⌉ : ℤ) : WithTop ℤ) with hc | hc
      · rw [hc]; exact h
      · rw [hc]; exact WithTop.coe_ne_top

theorem pipesPerContainer_pos_fits (q : PipeSpec) (volume : Volume)
    (h : 0 < (calculatePipeResult q volume).pipesPerContainer) :
    (calculatePipeResult q volume).standardLengthCm ≤ volume.length := by
  simp only [calculatePipeResult] at h ⊢
  by_cases hG : 0 < q.externalDiameter / 10 ∧ 0 < q.standardLength / 10
  · rw [if_pos hG] at h
    by_cases hfit : q.standardLength / 10 ≤ volume.length
    · exact hfit
    · rw [if_neg hfit] at h
      simp at h
  · rw [if_neg hG] at h
    simp at h

/-- Claim C10 (confirmed): when the container's width, height or length is
non-positive — so that the computed container volume
`width * height * length / 1000000` is not positive — the aggregator returns
`total = 0`, `byPacking = 0`, `byWeight = 0` and `limitingFactor = "none"`
for every list of pipe results and every total weight; in particular the
lower bound `total ≥ 1` does not hold for a degenerate container. -/
theorem claim10_degenerate_container (pipeResults : List PipeResult) (totalWeight : ℚ)
    (volume : Volume)
    (_hdeg : volume.width ≤ 0 ∨ volume.height ≤ 0 ∨ volume.length ≤ 0)
    (hvol : volume.width * volume.height * volume.length ≤ 0) :
    (calculateVolumesNeededByPacking pipeResults totalWeight volume).total = 0 ∧
    (calculateVolumesNeededByPacking pipeResults totalWeight volume).byPacking = 0 ∧
    (calculateVolumesNeededByPacking pipeResults totalWeight volume).byWeight = 0 ∧
    (calculateVolumesNeededByPacking pipeResults totalWeight volume).limitingFactor = "none" := by
  have h : volume.width * volume.height * volume.length / 1000000 ≤ 0 :=
    div_nonpos_of_nonpos_of_nonneg hvol (by norm_num)
  rw [calcVol_degenerate pipeResults totalWeight volume h]
  exact ⟨rfl, rfl, rfl, rfl⟩

/-- Witness for `claim10_degenerate_container`: a zero-width container with a
pipe of positive demand (5 pipes needed) still reports all-zero results. -/
theorem claim10_degenerate_container_witness :
    (cw10.width ≤ 0 ∨ cw10.height ≤ 0 ∨ cw10.length ≤ 0) ∧
    cw10.width * cw10.height * cw10.length ≤ 0 ∧
    0 < (calculatePipeResult ps10 cw10).numberOfPipes ∧
    ((calculateVolumesNeededByPacking [calculatePipeResult ps10 cw10] 10 cw10).total = 0 ∧
      (calculateVolumesNeededByPacking [calculatePipeResult ps10 cw10] 10 cw10).byPacking = 0 ∧
      (calculateVolumesNeededByPacking [calculatePipeResult ps10 cw10] 10 cw10).byWeight = 0 ∧
      (calculateVolumesNeededByPacking [calculatePipeResult ps10 cw10] 10
        cw10).limitingFactor = "none") := by
  refine ⟨by norm_num [cw10], by norm_num [cw10], ?_,
    claim10_degenerate_container _ _ _ (by norm_num [cw10]) (by norm_num [cw10])⟩
  norm_num [calculatePipeResult, ps10]

/-- Claim C6, counterexample: with a zero-width container, the pipe `ps10`
has positive demand (`numberOfPipes = 5`) and zero per-container capacity,
yet the aggregator reports `total = 0` with `limitingFactor = "none"` and no
error — not `total = ∞`, `limitingFactor = "packing"` and an error field as
the claim states for every such input. -/
theorem claim6_counterexample :
    0 < (calculatePipeResult ps10 cw10).numberOfPipes ∧
    (calculatePipeResult ps10 cw10).pipesPerContainer ≤ 0 ∧
    (calculateVolumesNeededByPacking [calculatePipeResult ps10 cw10] 10 cw10).total = 0 ∧
    (calculateVolumesNeededByPacking [calculatePipeResult ps10 cw10] 10 cw10).total ≠ ⊤ ∧
    (calculateVolumesNeededByPacking [calculatePipeResult ps10 cw10] 10
      cw10).limitingFactor ≠ "packing" ∧
    (calculateVolumesNeededByPacking [calculatePipeResult ps10 cw10] 10 cw10).error = none := by
  rw [calcVol_degenerate [calculatePipeResult ps10 cw10] 10 cw10 (by norm_num [cw10])]
  refine ⟨?_, ?_, rfl, by decide, by decide, rfl⟩
  · norm_num [calculatePipeResult, ps10]
  · norm_num [calculatePipeResult, ps10, cw10]

/-- Claim C6 (corrected): provided the container's width, height and length
are positive (so the aggregator does not take its degenerate early return),
any pipe with positive demand and zero per-container capacity — because its
standard length exceeds the container length or `pipesPerContainer ≤ 0` —
forces `total = ∞`, `byPacking = ∞`, `limitingFactor = "packing"` and the
explicit error field. -/
theorem claim6_infeasible_total (pipes : List PipeSpec) (volume : Volume) (totalWeight : ℚ)
    (hw : 0 < volume.width) (hh : 0 < volume.height) (hl : 0 < volume.length)
    (hbad : ∃ p ∈ pipes, 0 < (calculatePipeResult p volume).numberOfPipes ∧
      ((calculatePipeResult p volume).pipesPerContainer ≤ 0 ∨
        volume.length < (calculatePipeResult p volume).standardLengthCm)) :
    (aggregate pipes totalWeight volume).total = ⊤ ∧
    (aggregate pipes totalWeight volume).byPacking = ⊤ ∧
    (aggregate pipes totalWeight volume).limitingFactor = "packing" ∧
    (aggregate pipes totalWeight volume).error = some "Some pipes cannot fit in the container" := by
  have hpos : ¬(volume.width * volume.height * volume.length / 1000000 ≤ 0) := by
    push_neg
    exact div_pos (mul_pos (mul_pos hw hh) hl) (by norm_num)
  obtain ⟨p, hp, hn, hbad2⟩ := hbad
  have htop := scan_top_of_trigger volume (pipes.map (calculatePipeResult · volume))
    (calculatePipeResult p volume) (List.mem_map_of_mem _ hp) hn.ne' hbad2
  unfold aggregate
  rw [calcVol_infinite _ _ _ hpos htop]
  exact ⟨rfl, rfl, rfl, rfl⟩

/-- Witness for `claim6_infeasible_total`: in the 100 cm container `vol7`,
the pipe `ps6` (standard length 200 cm, demand 5 pipes) cannot fit, and the
aggregator reports the infinite/flagged result. -/
theorem claim6_infeasible_total_witness :
    (0 < vol7.width ∧ 0 < vol7.height ∧ 0 < vol7.length) ∧
    (∃ p ∈ [ps6], 0 < (calculatePipeResult p vol7).numberOfPipes ∧
      ((calculatePipeResult p vol7).pipesPerContainer ≤ 0 ∨
        vol7.length < (calculatePipeResult p vol7).standardLengthCm)) ∧
    ((aggregate [ps6] 20 vol7).total = ⊤ ∧
      (aggregate [ps6] 20 vol7).byPacking = ⊤ ∧
      (aggregate [ps6] 20 vol7).limitingFactor = "packing" ∧
      (aggregate [ps6] 20 vol7).error = some "Some pipes cannot fit in the container") := by
  have hbad : ∃ p ∈ [ps6], 0 < (calculatePipeResult p vol7).numberOfPipes ∧
      ((calculatePipeResult p vol7).pipesPerContainer ≤ 0 ∨
        vol7.length < (calculatePipeResult p vol7).standardLengthCm) := by
    refine ⟨ps6, by simp, ?_, Or.inr ?_⟩
    · norm_num [calculatePipeResult, ps6]
    · norm_num [calculatePipeResult, ps6, vol7]
  exact ⟨by norm_num [vol7],
    hbad,
    claim6_infeasible_total [ps6] vol7 20 (by norm_num [vol7]) (by norm_num [vol7])
      (by norm_num [vol7]) hbad⟩

/-- Claim C7 (confirmed): for a container with positive dimensions where
every pipe the aggregation loop considers (non-zero `numberOfPipes`) has
positive per-container capacity, the aggregator returns
`total = max(byPacking, byWeight, 1)` and sets `limitingFactor` to "packing"
when `byPacking > byWeight`, "weight" when `byWeight > byPacking`, "both"
when they are equal and positive, and "none" otherwise. -/
theorem claim7_total_and_limiting (pipes : List PipeSpec) (volume : Volume) (totalWeight : ℚ)
    (hw : 0 < volume.width) (hh : 0 < volume.height) (hl : 0 < volume.length)
    (hcap : ∀ p ∈ pipes, (calculatePipeResult p volume).numberOfPipes ≠ 0 →
      0 < (calculatePipeResult p volume).pipesPerContainer) :
    (aggregate pipes totalWeight volume).total =
      max (max (aggregate pipes totalWeight volume).byPacking
        (((aggregate pipes totalWeight volume).byWeight : ℤ) : WithTop ℤ)) 1 ∧
    (((aggregate pipes totalWeight volume).byWeight : WithTop ℤ) <
        (aggregate pipes totalWeight volume).byPacking →
      (aggregate pipes totalWeight volume).limitingFactor = "packing") ∧
    ((aggregate pipes totalWeight volume).byPacking <
        ((aggregate pipes totalWeight volume).byWeight : WithTop ℤ) →
      (aggregate pipes totalWeight volume).limitingFactor = "weight") ∧
    ((aggregate pipes totalWeight volume).byPacking =
        ((aggregate pipes totalWeight volume).byWeight : WithTop ℤ) ∧
        0 < (aggregate pipes totalWeight volume).byPacking →
      (aggregate pipes totalWeight volume).limitingFactor = "both") ∧
    ((aggregate pipes totalWeight volume).byPacking =
        ((aggregate pipes totalWeight volume).byWeight : WithTop ℤ) ∧
        (aggregate pipes totalWeight volume).byPacking ≤ 0 →
      (aggregate pipes totalWeight volume).limitingFactor = "none") := by
  have hpos : ¬(volume.width * volume.height * volume.length / 1000000 ≤ 0) := by
    push_neg
    exact div_pos (mul_pos (mul_pos hw hh) hl) (by norm_num)
  have hgood : ∀ q ∈ pipes.map (calculatePipeResult · volume), q.numberOfPipes ≠ 0 →
      0 < q.pipesPerContainer ∧ q.standardLengthCm ≤ volume.length := by
    intro q hq hn
    obtain ⟨p, hp, rfl⟩ := List.mem_map.mp hq
    have h1 := hcap p hp hn
    exact ⟨h1, pipesPerContainer_pos_fits p volume h1⟩
  have hfin := foldl_aggStep_ne_top volume _ hgood ((0 : WithTop ℤ), []) (by simp)
  unfold aggregate
  rw [calcVol_finite _ _ _ hpos hfin]
  dsimp only
  refine ⟨rfl, ?_, ?_, ?_, ?_⟩
  · intro h
    exact if_pos h
  · intro h
    rw [if_neg (lt_asymm h), if_pos h]
  · rintro ⟨heq, hp0⟩
    rw [if_neg (by rw [heq]; exact lt_irrefl _), if_neg (by rw [heq]; exact lt_irrefl _),
      if_pos ⟨hp0, heq⟩]
  · rintro ⟨heq, hle⟩
    rw [if_neg (by rw [heq]; exact lt_irrefl _), if_neg (by rw [heq]; exact lt_irrefl _),
      if_neg (by rintro ⟨h0, _⟩; exact absurd h0 (not_lt.mpr hle))]

/-- Witness for `claim7_total_and_limiting`: one fitting pipe type in `vol7`
(capacity 100 per container, demand 10, no weight cap) gives `byPacking = 1`,
`byWeight = 0`, `total = 1` and `limitingFactor = "packing"`. -/
theorem claim7_total_and_limiting_witness :
    (0 < vol7.width ∧ 0 < vol7.height ∧ 0 < vol7.length) ∧
    (∀ p ∈ [ps7], (calculatePipeResult p vol7).numberOfPipes ≠ 0 →
      0 < (calculatePipeResult p vol7).pipesPerContainer) ∧
    (aggregate [ps7] 20 vol7).total =
      max (max (aggregate [ps7] 20 vol7).byPacking
        (((aggregate [ps7] 20 vol7).byWeight : ℤ) : WithTop ℤ)) 1 ∧
    (((aggregate [ps7] 20 vol7).byWeight : WithTop ℤ) < (aggregate [ps7] 20 vol7).byPacking →
      (aggregate [ps7] 20 vol7).limitingFactor = "packing") := by
  have hcap : ∀ p ∈ [ps7], (calculatePipeResult p vol7).numberOfPipes ≠ 0 →
      0 < (calculatePipeResult p vol7).pipesPerContainer := by
    intro p hp _
    simp only [List.mem_singleton] at hp
    subst hp
    norm_num [calculatePipeResult, ps7, vol7]
  have main := claim7_total_and_limiting [ps7] vol7 20 (by norm_num [vol7])
    (by norm_num [vol7]) (by norm_num [vol7]) hcap
  exact ⟨by norm_num [vol7], hcap, main.1, main.2.1⟩

/-! ## Engine lemmas -/

theorem foldl_pick_mem (l : List Cand) :
    ∀ b : Cand, l.foldl (fun best cand => if cmpLt cand best then cand else best) b = b ∨
      l.foldl (fun best cand => if cmpLt cand best then cand else best) b ∈ l := by
  induction l with
  | nil => exact fun b => Or.inl rfl
  | cons c t ih =>
    intro b
    rw [List.foldl_cons]
    rcases ih (if cmpLt c b then c else b) with hm | hm
    · rw [hm]
      by_cases hlt : cmpLt c b
      · rw [if_pos hlt]
        exact Or.inr (List.mem_cons_self _ _)
      · rw [if_neg hlt]
        exact Or.inl rfl
    · exact Or.inr (List.mem_cons_of_mem _ hm)

theorem selectBest_mem (l : List Cand) (c : Cand) (h : selectBest l = some c) : c ∈ l := by
  cases l with
  | nil => exact absurd h (by simp [selectBest])
  | cons a t =>
    have hc : t.foldl (fun best cand => if cmpLt cand best then cand else best) a = c :=
      Option.some.inj h
    rcases foldl_pick_mem t a with hm | hm
    · rw [hc] at hm
      rw [← hm]
      exact List.mem_cons_self _ _
    · rw [hc] at hm
      exact List.mem_cons_of_mem _ hm

theorem findBestPosition_some (placed : List Circle) (radius w h x y : ℝ)
    (hfb : findBestPosition placed radius w h = some (x, y)) :
    canPlaceCircle x y radius placed w h := by
  unfold findBestPosition at hfb
  by_cases hemp : placed.isEmpty
  · rw [if_pos hemp] at hfb
    have hnil : placed = [] := List.isEmpty_iff.mp hemp
    by_cases hfit : radius * 2 ≤ w ∧ radius * 2 ≤ h
    · rw [if_pos hfit] at hfb
      have hp : (radius, radius) = (x, y) := Option.some.inj hfb
      have hx : radius = x := congrArg Prod.fst hp
      have hy : radius = y := congrArg Prod.snd hp
      subst hx hy
      constructor
      · push_neg
        refine ⟨by linarith, by linarith [hfit.1], by linarith, by linarith [hfit.2]⟩
      · rw [hnil]
        intro p hp'
        exact absurd hp' (List.not_mem_nil p)
    · rw [if_neg hfit] at hfb
      exact absurd hfb (by simp)
  · rw [if_neg hemp] at hfb
    dsimp only at hfb
    obtain ⟨c, hc, hxy⟩ := Option.map_eq_some'.mp hfb
    have hmem := selectBest_mem _ _ hc
    have hval : isValidCand radius w h placed c :=
      of_decide_eq_true (List.mem_filter.mp hmem).2
    have hx : c.x = x := congrArg Prod.fst hxy
    have hy : c.y = y := congrArg Prod.snd hxy
    subst hx hy
    exact hval.2.2.2.2

theorem placeStep_inv (crossSection : Rect) (spacing volumeLength weightCapacity : ℚ)
    (s : PackState) (t : Template)
    (hinv : PlacedInv spacing (crossSection.width : ℝ) (crossSection.height : ℝ) s.placed) :
    PlacedInv spacing (crossSection.width : ℝ) (crossSection.height : ℝ)
      (placeStep crossSection spacing volumeLength weightCapacity s t).placed := by
  rcases hfb : findBestPosition s.placed ((t.diameter : ℝ) / 2 + (spacing : ℝ) / 2)
      (crossSection.width : ℝ) (crossSection.height : ℝ) with _ | pos
  · simp only [placeStep, hfb]
    exact hinv
  · simp only [placeStep, hfb]
    by_cases hw : weightCapacity = 0 ∨ s.totalWeight + t.weight ≤ weightCapacity
    · rw [if_pos hw]
      have hcan := findBestPosition_some s.placed _ _ _ pos.1 pos.2 (by rw [hfb])
      obtain ⟨hbounds, hsep⟩ := hcan
      push_neg at hbounds
      obtain ⟨hb1, hb2, hb3, hb4⟩ := hbounds
      constructor
      · intro c hc
        rcases List.mem_append.mp hc with hc | hc
        · exact hinv.1 c hc
        · rw [List.mem_singleton] at hc
          subst hc
          exact ⟨rfl, hb1, hb2, hb3, hb4⟩
      · rw [List.pairwise_append]
        refine ⟨hinv.2, List.pairwise_singleton _ _, ?_⟩
        intro a ha b hb
        rw [List.mem_singleton] at hb
        subst hb
        have hle := not_lt.mp (hsep a ha)
        show a.effectiveRadius + ((t.diameter : ℝ) / 2 + (spacing : ℝ) / 2) - 0.001 ≤ _
        calc a.effectiveRadius + ((t.diameter : ℝ) / 2 + (spacing : ℝ) / 2) - 0.001
            = (t.diameter : ℝ) / 2 + (spacing : ℝ) / 2 + a.effectiveRadius - 0.001 := by ring
          _ ≤ Real.sqrt ((pos.1 - a.x) ^ 2 + (pos.2 - a.y) ^ 2) := hle
    · rw [if_neg hw]
      exact hinv

theorem packRound_inv (crossSection : Rect) (spacing volumeLength weightCapacity : ℚ)
    (pipeTemplates : List Template) :
    ∀ s : PackState,
      PlacedInv spacing (crossSection.width : ℝ) (crossSection.height : ℝ) s.placed →
      PlacedInv spacing (crossSection.width : ℝ) (crossSection.height : ℝ)
        (packRound crossSection spacing volumeLength weightCapacity pipeTemplates s).placed := by
  induction pipeTemplates with
  | nil => exact fun s h => h
  | cons t ts ih =>
    intro s h
    unfold packRound
    rw [List.foldl_cons]
    have step := placeStep_inv crossSection spacing volumeLength weightCapacity s t h
    have := ih _ step
    unfold packRound at this
    exact this

theorem packLoop_inv (crossSection : Rect) (spacing volumeLength weightCapacity : ℚ)
    (pipeTemplates : List Template) :
    ∀ (fuel : ℕ) (s : PackState),
      PlacedInv spacing (crossSection.width : ℝ) (crossSection.height : ℝ) s.placed →
      PlacedInv spacing (crossSection.width : ℝ) (crossSection.height : ℝ)
        (packLoop crossSection spacing volumeLength weightCapacity pipeTemplates fuel s).placed := by
  intro fuel
  induction fuel with
  | zero => exact fun s h => h
  | succ n ih =>
    intro s h
    unfold packLoop
    by_cases hany : s.placedAny
    · rw [if_pos hany]
      exact ih _ (packRound_inv crossSection spacing volumeLength weightCapacity pipeTemplates
        { s with placedAny := false } h)
    · rw [if_neg hany]
      exact h

theorem arrangePipes_inv (crossSection : Rect) (nestedGroups : List NGroup)
    (standalonePipes : List Pipe) (spacing volumeLength weightCapacity : ℚ) :
    PlacedInv spacing (crossSection.width : ℝ) (crossSection.height : ℝ)
      (arrangePipesInCrossSection crossSection nestedGroups standalonePipes spacing volumeLength
        weightCapacity).positions := by
  unfold arrangePipesInCrossSection
  dsimp only
  apply packLoop_inv
  exact ⟨fun c hc => absurd hc (List.not_mem_nil c), List.Pairwise.nil⟩

/-- Claim C1 (confirmed): in every output of `arrangePipesInCrossSection`,
every pair of distinct placed circles has centre distance at least the sum of
their effective radii (bare radius plus half the spacing) minus the engine's
0.001 tolerance. -/
theorem claim1_engine_nonoverlap (crossSection : Rect) (nestedGroups : List NGroup)
    (standalonePipes : List Pipe) (spacing volumeLength weightCapacity : ℚ) :
    (arrangePipesInCrossSection crossSection nestedGroups standalonePipes spacing volumeLength
      weightCapacity).positions.Pairwise fun c₁ c₂ =>
        (c₁.radius + (spacing : ℝ) / 2) + (c₂.radius + (spacing : ℝ) / 2) - 0.001 ≤
          Real.sqrt ((c₂.x - c₁.x) ^ 2 + (c₂.y - c₁.y) ^ 2) := by
  obtain ⟨hok, hsep⟩ :=
    arrangePipes_inv crossSection nestedGroups standalonePipes spacing volumeLength weightCapacity
  refine List.Pairwise.imp_of_mem ?_ hsep
  intro a b ha hb hab
  rw [← (hok a ha).1, ← (hok b hb).1]
  exact hab

/-- Claim C2 (confirmed): in every output of `arrangePipesInCrossSection`,
every placed circle lies fully inside the rectangle with its effective radius
(bare radius plus half the spacing). -/
theorem claim2_engine_inbounds (crossSection : Rect) (nestedGroups : List NGroup)
    (standalonePipes : List Pipe) (spacing volumeLength weightCapacity : ℚ) :
    (arrangePipesInCrossSection crossSection nestedGroups standalonePipes spacing volumeLength
      weightCapacity).positions.Forall fun c =>
        0 ≤ c.x - (c.radius + (spacing : ℝ) / 2) ∧
        c.x + (c.radius + (spacing : ℝ) / 2) ≤ (crossSection.width : ℝ) ∧
        0 ≤ c.y - (c.radius + (spacing : ℝ) / 2) ∧
        c.y + (c.radius + (spacing : ℝ) / 2) ≤ (crossSection.height : ℝ) := by
  obtain ⟨hok, _⟩ :=
    arrangePipes_inv crossSection nestedGroups standalonePipes spacing volumeLength weightCapacity
  rw [List.forall_iff_forall_mem]
  intro c hc
  obtain ⟨heff, h1, h2, h3, h4⟩ := hok c hc
  rw [← heff]
  exact ⟨h1, h2, h3, h4⟩

/-! ### Concrete engine runs (scenario D and the degenerate-width input) -/

theorem sqrt_nonpos_iff (x : ℝ) : Real.sqrt x ≤ 0 ↔ x ≤ 0 := by
  constructor
  · intro h
    exact Real.sqrt_eq_zero'.mp (le_antisymm h (Real.sqrt_nonneg x))
  · intro h
    rw [Real.sqrt_eq_zero'.mpr h]

theorem sqrt_lit (a : ℝ) (h : 0 ≤ a) : Real.sqrt (a ^ 2) = a := Real.sqrt_sq h

theorem sqrt_four : Real.sqrt 4 = 2 := by
  rw [show (4 : ℝ) = 2 ^ 2 by norm_num]
  exact sqrt_lit 2 (by norm_num)

theorem sqrt_nine : Real.sqrt 9 = 3 := by
  rw [show (9 : ℝ) = 3 ^ 2 by norm_num]
  exact sqrt_lit 3 (by norm_num)

theorem sqrt_sixteen : Real.sqrt 16 = 4 := by
  rw [show (16 : ℝ) = 4 ^ 2 by norm_num]
  exact sqrt_lit 4 (by norm_num)

theorem sqrt_twentyfive : Real.sqrt 25 = 5 := by
  rw [show (25 : ℝ) = 5 ^ 2 by norm_num]
  exact sqrt_lit 5 (by norm_num)

theorem sqrt_thirtysix : Real.sqrt 36 = 6 := by
  rw [show (36 : ℝ) = 6 ^ 2 by norm_num]
  exact sqrt_lit 6 (by norm_num)

theorem sqrt_fortynine : Real.sqrt 49 = 7 := by
  rw [show (49 : ℝ) = 7 ^ 2 by norm_num]
  exact sqrt_lit 7 (by norm_num)

theorem sqrt_eightyone : Real.sqrt 81 = 9 := by
  rw [show (81 : ℝ) = 9 ^ 2 by norm_num]
  exact sqrt_lit 9 (by norm_num)

theorem sqrt_121 : Real.sqrt 121 = 11 := by
  rw [show (121 : ℝ) = 11 ^ 2 by norm_num]
  exact sqrt_lit 11 (by norm_num)

theorem one_sub_sub_one (a : ℝ) : 1 - a - 1 = -a := by ring

theorem one_add_add_one_le_two (a : ℝ) : 1 + a + 1 ≤ 2 ↔ a ≤ 0 := by
  constructor <;> intro h <;> linarith

theorem floorXsD : floorCandidateXs 1 8 =
    [1, 1.5, 2, 2.5, 3, 3.5, 4, 4.5, 5, 5.5, 6, 6.5, 7] := by
  unfold floorCandidateXs
  rw [if_pos (by norm_num)]
  rw [show ⌊((8 : ℝ) - 2 * 1) / (1 / 2)⌋₊ + 1 = 13 by norm_num]
  rw [show List.range 13 = [0, 1, 2, 3, 4, 5, 6, 7, 8, 9, 10, 11, 12] from rfl]
  norm_num

theorem fbD1 : findBestPosition [] 1 8 2 = some (1, 1) := by
  unfold findBestPosition
  rw [if_pos (show ([] : List Circle).isEmpty = true from rfl), if_pos (by norm_num)]

theorem fbD2 : findBestPosition [cD1] 1 8 2 = some (3, 1) := by
  unfold findBestPosition
  rw [if_neg (by simp)]
  simp only [floorXsD]
  norm_num [perCircleCands, nookCands, canPlaceCircle, isValidCand, selectBest, cmpLt,
    cD1, tLP, standaloneTemplate, LP, sqrt_four, sqrt_nine, sqrt_sixteen, sqrt_twentyfive,
    sqrt_thirtysix, sqrt_fortynine, sqrt_eightyone, sqrt_121,
    List.filterMap_cons, List.filter_cons,
    decide_eq_true_eq, abs_of_nonneg, abs_of_nonpos]

theorem nestD12 (l : List Circle) : findNestingPositions cD1 cD2 1 l 8 2 = [] := by
  unfold findNestingPositions
  norm_num [cD1, cD2, tLP, standaloneTemplate, LP, sqrt_four, max_def, mul_div_assoc,
    one_sub_sub_one, one_add_add_one_le_two, sqrt_nonpos_iff, List.filterMap_cons,
    add_le_iff_nonpos_left, abs_of_nonneg, abs_of_nonpos]

theorem nestD13 (l : List Circle) : findNestingPositions cD1 cD3 1 l 8 2 = [] := by
  unfold findNestingPositions
  norm_num [cD1, cD3, tLP, standaloneTemplate, LP, sqrt_sixteen, abs_of_nonneg, abs_of_nonpos]

theorem nestD23 (l : List Circle) : findNestingPositions cD2 cD3 1 l 8 2 = [] := by
  unfold findNestingPositions
  norm_num [cD2, cD3, tLP, standaloneTemplate, LP, sqrt_four, max_def, mul_div_assoc,
    one_sub_sub_one, one_add_add_one_le_two, sqrt_nonpos_iff, List.filterMap_cons,
    add_le_iff_nonpos_left, abs_of_nonneg, abs_of_nonpos]

theorem fbD3 : findBestPosition [cD1, cD2] 1 8 2 = some (5, 1) := by
  unfold findBestPosition
  rw [if_neg (by simp)]
  simp only [floorXsD]
  have hnook : nookCands 1 [cD1, cD2] 8 2 [cD1, cD2] = [] := by
    simp [nookCands, nestD12]
  rw [hnook]
  norm_num [perCircleCands, canPlaceCircle, isValidCand, selectBest,
    cmpLt, cD1, cD2, tLP, standaloneTemplate, LP, sqrt_four, sqrt_nine, sqrt_sixteen,
    sqrt_twentyfive, sqrt_thirtysix, sqrt_fortynine, sqrt_eightyone, sqrt_121,
    List.filterMap_cons, List.filter_cons, decide_eq_true_eq, abs_of_nonneg, abs_of_nonpos]

theorem fbD4 : findBestPosition [cD1, cD2, cD3] 1 8 2 = some (7, 1) := by
  unfold findBestPosition
  rw [if_neg (by simp)]
  simp only [floorXsD]
  have hnook : nookCands 1 [cD1, cD2, cD3] 8 2 [cD1, cD2, cD3] = [] := by
    simp [nookCands, nestD12, nestD13, nestD23]
  rw [hnook]
  norm_num [perCircleCands, canPlaceCircle, isValidCand,
    selectBest, cmpLt, cD1, cD2, cD3, tLP, standaloneTemplate, LP, sqrt_four, sqrt_nine,
    sqrt_sixteen, sqrt_twentyfive, sqrt_thirtysix, sqrt_fortynine, sqrt_eightyone, sqrt_121,
    List.filterMap_cons, List.filter_cons, decide_eq_true_eq, abs_of_nonneg, abs_of_nonpos]

theorem fbE : findBestPosition [] 1 (-5) 10 = none := by
  unfold findBestPosition
  rw [if_pos (show ([] : List Circle).isEmpty = true from rfl), if_neg (by norm_num)]

theorem packLoop_succ (cs : Rect) (sp vl wc : ℚ) (ts : List Template) (fuel : ℕ)
    (s : PackState) :
    packLoop cs sp vl wc ts (fuel + 1) s =
      if s.placedAny then
        packLoop cs sp vl wc ts fuel (packRound cs sp vl wc ts { s with placedAny := false })
      else s := rfl

theorem roundD1 : packRound csD 0 100 100 [tLP] { stD0 with placedAny := false } = stD1 := by
  unfold packRound
  rw [List.foldl_cons, List.foldl_nil]
  unfold placeStep
  norm_num [tLP, standaloneTemplate, LP, csD, stD0]
  rw [fbD1]
  norm_num [stD1, cD1, bumpCount, tLP, standaloneTemplate, LP]

theorem roundD2 : packRound csD 0 100 100 [tLP] { stD1 with placedAny := false } = stD2 := by
  unfold packRound
  rw [List.foldl_cons, List.foldl_nil]
  unfold placeStep
  norm_num [tLP, standaloneTemplate, LP, csD, stD1]
  rw [fbD2]
  norm_num [stD2, cD1, cD2, bumpCount, tLP, standaloneTemplate, LP]

theorem roundD3 : packRound csD 0 100 100 [tLP] { stD2 with placedAny := false } = stD3 := by
  unfold packRound
  rw [List.foldl_cons, List.foldl_nil]
  unfold placeStep
  norm_num [tLP, standaloneTemplate, LP, csD, stD2]
  rw [fbD3]
  norm_num [stD3, cD1, cD2, cD3, bumpCount, tLP, standaloneTemplate, LP]

theorem roundD4 : packRound csD 0 100 100 [tLP] { stD3 with placedAny := false } = stD4 := by
  unfold packRound
  rw [List.foldl_cons, List.foldl_nil]
  unfold placeStep
  norm_num [tLP, standaloneTemplate, LP, csD, stD3]
  rw [fbD4]
  norm_num [stD4, cD1, cD2, cD3, tLP, standaloneTemplate, LP]

theorem loopD : packLoop csD 0 100 100 [tLP] 10000 stD0 = stD4 := by
  rw [show (10000 : ℕ) = 9999 + 1 from rfl, packLoop_succ,
    if_pos (show stD0.placedAny = true from rfl), roundD1]
  rw [show (9999 : ℕ) = 9998 + 1 from rfl, packLoop_succ,
    if_pos (show stD1.placedAny = true from rfl), roundD2]
  rw [show (9998 : ℕ) = 9997 + 1 from rfl, packLoop_succ,
    if_pos (show stD2.placedAny = true from rfl), roundD3]
  rw [show (9997 : ℕ) = 9996 + 1 from rfl, packLoop_succ,
    if_pos (show stD3.placedAny = true from rfl), roundD4]
  rw [show (9996 : ℕ) = 9995 + 1 from rfl, packLoop_succ, if_neg (by norm_num [stD4])]

theorem templatesD :
    (([] : List NGroup).map groupTemplate ++ [LP].map standaloneTemplate).mergeSort
      (fun a b => decide (b.diameter ≤ a.diameter)) = [tLP] := by
  simp [tLP]

theorem wInv_placeStep (cs : Rect) (s : PackState)
    (h : s.totalWeight = 30 * s.totalPipes ∧ s.totalWeight ≤ 100) :
    (placeStep cs 0 100 100 s tLP).totalWeight =
        30 * ((placeStep cs 0 100 100 s tLP).totalPipes : ℚ) ∧
      (placeStep cs 0 100 100 s tLP).totalWeight ≤ 100 := by
  have hw : tLP.weight = 30 := by norm_num [tLP, standaloneTemplate, LP]
  have hp : tLP.pipes.length = 1 := rfl
  rcases hfb : findBestPosition s.placed ((tLP.diameter : ℝ) / 2 + ((0 : ℚ) : ℝ) / 2)
      (cs.width : ℝ) (cs.height : ℝ) with _ | pos
  · simp only [placeStep, hfb]
    exact h
  · simp only [placeStep, hfb]
    by_cases hcap : (100 : ℚ) = 0 ∨ s.totalWeight + tLP.weight ≤ 100
    · rw [if_pos hcap]
      rcases hcap with hcap | hcap
      · exact absurd hcap (by norm_num)
      · constructor
        · dsimp only
          rw [hp, hw, h.1]
          push_cast
          ring
        · dsimp only
          rw [hw] at hcap ⊢
          exact hcap
    · rw [if_neg hcap]
      exact h

theorem wInv_packLoop (cs : Rect) :
    ∀ (fuel : ℕ) (s : PackState),
      s.totalWeight = 30 * s.totalPipes ∧ s.totalWeight ≤ 100 →
      (packLoop cs 0 100 100 [tLP] fuel s).totalWeight =
          30 * ((packLoop cs 0 100 100 [tLP] fuel s).totalPipes : ℚ) ∧
        (packLoop cs 0 100 100 [tLP] fuel s).totalWeight ≤ 100 := by
  intro fuel
  induction fuel with
  | zero => exact fun s h => h
  | succ n ih =>
    intro s h
    rw [packLoop_succ]
    by_cases hany : s.placedAny
    · rw [if_pos hany]
      refine ih _ ?_
      unfold packRound
      rw [List.foldl_cons, List.foldl_nil]
      exact wInv_placeStep cs { s with placedAny := false } h
    · rw [if_neg hany]
      exact h

theorem arrD_raw : arrangePipesInCrossSection csD [] [LP] 0 100 100 =
    { error := none,
      layers := [{ height := 2, yOffset := 0,
                   items := [cD1, cD2, cD3].map fun c =>
                     { id := c.item.outerPipe.id, pipe := c.item.outerPipe, x := c.x, y := c.y,
                       diameter := c.radius * 2, radius := c.radius,
                       nestedPipes := if c.item.isNested then c.item.nestedPipes else [] } }],
      pipeCounts := [(1, ⟨LP, 3, 300, 90⟩)],
      totalPipes := 3,
      totalWeight := 90,
      volumeUsed := 0,
      positions := [cD1, cD2, cD3],
      weightCapacityExceeded := true,
      pipesExtendBeyondVolume := false,
      maxPipeLength := 0 } := by
  unfold arrangePipesInCrossSection
  dsimp only
  rw [templatesD]
  rw [show ({ placed := [], pipeCounts := [], totalPipes := 0, totalWeight := 0,
              weightCapacityExceeded := false, pipesExtendBeyondVolume := false,
              maxPipeLength := 0, placedAny := true } : PackState) = stD0 from rfl]
  rw [loopD]
  norm_num [stD4, csD]

/-- Claim C3 (confirmed): with `weightCapacity = 100` and the single standalone
template of `LP` (30 kg per placed unit), the engine never accepts more than
three units in any cross-section (the weight guard caps the accepted weight at
100), and in the 8 × 2 cross-section `csD`, which has geometric room for a
fourth Ø2 circle, it places exactly three circles (cumulative weight 90) and
sets `weightCapacityExceeded` when the fourth placement would reach 120. -/
theorem claim3_weight_capacity :
    (∀ cs : Rect,
      ((arrangePipesInCrossSection cs [] [LP] 0 100 100).totalPipes ≤ 3 ∧
        (arrangePipesInCrossSection cs [] [LP] 0 100 100).totalWeight ≤ 100)) ∧
    (arrangePipesInCrossSection csD [] [LP] 0 100 100).positions.length = 3 ∧
    (arrangePipesInCrossSection csD [] [LP] 0 100 100).totalPipes = 3 ∧
    (arrangePipesInCrossSection csD [] [LP] 0 100 100).totalWeight = 90 ∧
    (arrangePipesInCrossSection csD [] [LP] 0 100 100).weightCapacityExceeded = true := by
  constructor
  · intro cs
    have hfin := wInv_packLoop cs 10000
      { placed := [], pipeCounts := [], totalPipes := 0, totalWeight := 0,
        weightCapacityExceeded := false, pipesExtendBeyondVolume := false, maxPipeLength := 0,
        placedAny := true } (by norm_num)
    unfold arrangePipesInCrossSection
    rw [templatesD]
    dsimp only
    refine ⟨?_, hfin.2⟩
    have hle : (30 : ℚ) *
        ((packLoop cs 0 100 100 [tLP] 10000
          { placed := [], pipeCounts := [], totalPipes := 0, totalWeight := 0,
            weightCapacityExceeded := false, pipesExtendBeyondVolume := false,
            maxPipeLength := 0, placedAny := true }).totalPipes : ℚ) ≤ 100 := by
      rw [← hfin.1]
      exact hfin.2
    by_contra hgt
    push_neg at hgt
    have h4 : (4 : ℚ) ≤ ((packLoop cs 0 100 100 [tLP] 10000
        { placed := [], pipeCounts := [], totalPipes := 0, totalWeight := 0,
          weightCapacityExceeded := false, pipesExtendBeyondVolume := false,
          maxPipeLength := 0, placedAny := true }).totalPipes : ℚ) := by
      exact_mod_cast hgt
    linarith
  · rw [arrD_raw]
    norm_num [cD1, cD2, cD3]

theorem cngLP : createNestedGroups [LP] 0 = ([], [LP]) := by
  unfold createNestedGroups
  rw [show sortPipesDesc [LP] = [LP] from by simp [sortPipesDesc]]
  norm_num [outerScanStep, nestScanStep, LP]

theorem roundE : packRound csE 0 10 0 [tLP] { stD0 with placedAny := false } = stDF := by
  unfold packRound
  rw [List.foldl_cons, List.foldl_nil]
  unfold placeStep
  norm_num [tLP, standaloneTemplate, LP, csE, stD0]
  rw [fbE]
  norm_num [stD0, stDF]

theorem loopE : packLoop csE 0 10 0 [tLP] 10000 stD0 = stDF := by
  rw [show (10000 : ℕ) = 9999 + 1 from rfl, packLoop_succ,
    if_pos (show stD0.placedAny = true from rfl), roundE]
  rw [show (9999 : ℕ) = 9998 + 1 from rfl, packLoop_succ, if_neg (by norm_num [stDF])]

theorem arrE : arrangePipesInCrossSection csE [] [LP] 0 10 0 =
    { error := none,
      layers := [{ height := 10, yOffset := 0, items := [] }],
      pipeCounts := [],
      totalPipes := 0,
      totalWeight := 0,
      volumeUsed := 0,
      positions := [],
      weightCapacityExceeded := false,
      pipesExtendBeyondVolume := false,
      maxPipeLength := 0 } := by
  unfold arrangePipesInCrossSection
  dsimp only
  rw [templatesD]
  rw [show ({ placed := [], pipeCounts := [], totalPipes := 0, totalWeight := 0,
              weightCapacityExceeded := false, pipesExtendBeyondVolume := false,
              maxPipeLength := 0, placedAny := true } : PackState) = stD0 from rfl]
  rw [loopE]
  norm_num [stDF, csE]

/-- Claim C8 (counterexample): the volume `cw8` has width `-5 ≤ 0`, yet
`optimizeArrangement` does not return a tagged failure: JavaScript's falsiness
check `!volume.width` only catches `width = 0`, so the negative-width input
flows into the engine, which returns an untagged empty arrangement
(`error = none`). -/
theorem claim8_counterexample :
    cw8.width < 0 ∧
    (optimizeArrangement cw8 [LP] [] 0 0).error = none ∧
    (optimizeArrangement cw8 [LP] [] 0 0).positions = [] ∧
    (optimizeArrangement cw8 [LP] [] 0 0).pipeCounts = [] := by
  have hvalid : [LP].filter (fun p => decide (0 < p.externalDiameter ∧ 0 < p.length)) = [LP] := by
    norm_num [LP, List.filter_cons]
  refine ⟨by norm_num [cw8], ?_⟩
  unfold optimizeArrangement
  rw [if_neg (by norm_num [cw8])]
  rw [if_neg (by simp)]
  rw [hvalid]
  rw [if_neg (by simp)]
  rw [show createNestedGroups [LP] 0 = ([], [LP]) from cngLP]
  rw [show (⟨cw8.width, cw8.height⟩ : Rect) = csE from rfl]
  rw [show cw8.length = 10 from rfl, show cw8.weightCapacity = 0 from rfl]
  dsimp only
  rw [if_pos (show ([] : List Box).isEmpty = true from rfl)]
  rw [arrE]
  exact ⟨rfl, rfl, rfl⟩

/-- Claim C8 (corrected): the validity guard is a falsiness test, so it fires
exactly on dimension zero: whenever `volume.width = 0` or `volume.height = 0`,
`optimizeArrangement` returns the tagged empty arrangement
`errorArrangement "Invalid volume dimensions"` (no placed circles, empty pipe
counts); a strictly negative width or height is not caught (see the
counterexample). -/
theorem claim8_zero_dimension_tagged (volume : Volume) (pipeTypes : List Pipe)
    (boxes : List Box) (minSpace allowance : ℚ)
    (h : volume.width = 0 ∨ volume.height = 0) :
    (optimizeArrangement volume pipeTypes boxes minSpace allowance).error =
      some "Invalid volume dimensions" ∧
    (optimizeArrangement volume pipeTypes boxes minSpace allowance).positions = [] ∧
    (optimizeArrangement volume pipeTypes boxes minSpace allowance).pipeCounts = [] ∧
    (optimizeArrangement volume pipeTypes boxes minSpace allowance).layers = [] := by
  unfold optimizeArrangement
  rw [if_pos (Or.inr (h.imp id id))]
  exact ⟨rfl, rfl, rfl, rfl⟩

theorem claim8_zero_dimension_witness :
    (vol8.width = 0 ∨ vol8.height = 0) ∧
    (optimizeArrangement vol8 [LP] [] 0 0).error = some "Invalid volume dimensions" := by
  refine ⟨Or.inl rfl, ?_⟩
  exact (claim8_zero_dimension_tagged vol8 [LP] [] 0 0 (Or.inl rfl)).1

end KzybruPipe
